import Mathlib

/-!
Verification of the iRODS client session engine (`irods/session.py`).

The development shallowly embeds the session module: the server side of the
connection is modelled as a scripted inbox of envelopes, every operation is a
function from a session state to a result, a successor state and the trace of
messages it sent (each paired with the value of the `authenticated` flag at
the moment of sending).  External collaborators that are not part of the
source file (the catalog model, the exception table, the digest function,
the numeric operation-code registry) are modelled from the specification and
carry a doc comment saying so.
-/

namespace IrodsClient

/-! ## Bytes and the MD5 digest

`hashlib.md5` is an external collaborator of `_login`; we embed the standard
MD5 algorithm over lists of byte values (naturals `< 256`), with 32-bit
words represented as naturals reduced `% 2^32`. -/

/-- One 32-bit word as a natural number; all arithmetic is done `% 2^32`. -/
def w32 (x : Nat) : Nat := x % 2 ^ 32

/-- Bitwise complement on 32-bit words. -/
def bnot32 (x : Nat) : Nat := 2 ^ 32 - 1 - w32 x

/-- Left-rotation of a 32-bit word by `c` places. -/
def rotl32 (x c : Nat) : Nat := (w32 x * 2 ^ c + w32 x / 2 ^ (32 - c)) % 2 ^ 32

/-- The four MD5 round functions. -/
def md5F (b c d : Nat) : Nat := (b &&& c) ||| (bnot32 b &&& d)

def md5G (b c d : Nat) : Nat := (b &&& d) ||| (c &&& bnot32 d)

def md5H (b c d : Nat) : Nat := b ^^^ c ^^^ d

def md5I (b c d : Nat) : Nat := c ^^^ (b ||| bnot32 d)

/-- The 64 MD5 sine-derived constants. -/
def md5K : List Nat :=
  [0xd76aa478, 0xe8c7b756, 0x242070db, 0xc1bdceee,
   0xf57c0faf, 0x4787c62a, 0xa8304613, 0xfd469501,
   0x698098d8, 0x8b44f7af, 0xffff5bb1, 0x895cd7be,
   0x6b901122, 0xfd987193, 0xa679438e, 0x49b40821,
   0xf61e2562, 0xc040b340, 0x265e5a51, 0xe9b6c7aa,
   0xd62f105d, 0x02441453, 0xd8a1e681, 0xe7d3fbc8,
   0x21e1cde6, 0xc33707d6, 0xf4d50d87, 0x455a14ed,
   0xa9e3e905, 0xfcefa3f8, 0x676f02d9, 0x8d2a4c8a,
   0xfffa3942, 0x8771f681, 0x6d9d6122, 0xfde5380c,
   0xa4beea44, 0x4bdecfa9, 0xf6bb4b60, 0xbebfbc70,
   0x289b7ec6, 0xeaa127fa, 0xd4ef3085, 0x04881d05,
   0xd9d4d039, 0xe6db99e5, 0x1fa27cf8, 0xc4ac5665,
   0xf4292244, 0x432aff97, 0xab9423a7, 0xfc93a039,
   0x655b59c3, 0x8f0ccc92, 0xffeff47d, 0x85845dd1,
   0x6fa87e4f, 0xfe2ce6e0, 0xa3014314, 0x4e0811a1,
   0xf7537e82, 0xbd3af235, 0x2ad7d2bb, 0xeb86d391]

/-- The per-round MD5 shift amounts (four per round group). -/
def md5Shift (i : Nat) : Nat :=
  (([[7, 12, 17, 22], [5, 9, 14, 20], [4, 11, 16, 23],
     [6, 10, 15, 21]].getD (i / 16) []).getD (i % 4) 0)

/-- Little-endian decoding of (up to) four bytes into one 32-bit word. -/
def le32 (bs : List Nat) : Nat :=
  match bs with
  | [] => 0
  | b :: rest => (b % 256) + 256 * le32 rest

/-- Little-endian encoding of a 32-bit word into four bytes. -/
def wordLE (x : Nat) : List Nat :=
  [x % 256, x / 2 ^ 8 % 256, x / 2 ^ 16 % 256, x / 2 ^ 24 % 256]

/-- Little-endian encoding of a 64-bit length field into eight bytes. -/
def len64LE (x : Nat) : List Nat :=
  [x % 256, x / 2 ^ 8 % 256, x / 2 ^ 16 % 256, x / 2 ^ 24 % 256,
   x / 2 ^ 32 % 256, x / 2 ^ 40 % 256, x / 2 ^ 48 % 256, x / 2 ^ 56 % 256]

/-- The `g`-index permutation selecting the message word for step `i`. -/
def md5Gidx (i : Nat) : Nat :=
  if i < 16 then i
  else if i < 32 then (5 * i + 1) % 16
  else if i < 48 then (3 * i + 5) % 16
  else (7 * i) % 16

/-- One MD5 step on the running state `(a, b, c, d)` for a 64-byte chunk. -/
def md5Step (chunk : List Nat) (st : Nat × Nat × Nat × Nat) (i : Nat) :
    Nat × Nat × Nat × Nat :=
  let (a, b, c, d) := st
  let f :=
    if i < 16 then md5F b c d
    else if i < 32 then md5G b c d
    else if i < 48 then md5H b c d
    else md5I b c d
  let m := le32 ((chunk.drop (4 * md5Gidx i)).take 4)
  let t := w32 (f + a + md5K.getD i 0 + m)
  (d, w32 (b + rotl32 t (md5Shift i)), b, c)

/-- Process one 64-byte chunk, updating the four-word MD5 state. -/
def md5Chunk (st : Nat × Nat × Nat × Nat) (chunk : List Nat) :
    Nat × Nat × Nat × Nat :=
  let (a0, b0, c0, d0) := st
  let (a, b, c, d) := (List.range 64).foldl (md5Step chunk) (a0, b0, c0, d0)
  (w32 (a0 + a), w32 (b0 + b), w32 (c0 + c), w32 (d0 + d))

/-- Split a byte list into 64-byte chunks. -/
def chunks64 (l : List Nat) : List (List Nat) :=
  if h : l = [] then []
  else l.take 64 :: chunks64 (l.drop 64)
termination_by l.length
decreasing_by
  simp only [List.length_drop]
  cases l with
  | nil => exact absurd rfl h
  | cons x xs => simp; omega

/-- MD5 padding: append `0x80`, zero bytes up to 56 mod 64, then the 64-bit
bit length, little-endian. -/
def md5Pad (msg : List Nat) : List Nat :=
  msg ++ [0x80] ++ List.replicate ((119 - msg.length % 64) % 64) 0 ++
    len64LE ((8 * msg.length) % 2 ^ 64)

/-- Modelled from the spec: the 16-byte digest function used by the login
handshake (`hashlib.md5`, an external collaborator of the source file),
embedded as the standard MD5 algorithm over byte lists. -/
def md5 (msg : List Nat) : List Nat :=
  let (a, b, c, d) :=
    (chunks64 (md5Pad msg)).foldl md5Chunk
      (0x67452301, 0xefcdab89, 0x98badcfe, 0x10325476)
  wordLE a ++ wordLE b ++ wordLE c ++ wordLE d

theorem md5_length (msg : List Nat) : (md5 msg).length = 16 := by
  simp [md5, wordLE]

/-! ## Password padding and the authentication digest -/

/-- Modelled from the spec: `MAX_PASSWORD_LENGTH`, the fixed maximum password
length imported from the package root (which is not under `src/`). -/
def MAX_PASSWORD_LENGTH : Nat := 50

/-- `struct.pack("50s", password)`: truncate to, or right-pad with zero bytes
up to, `MAX_PASSWORD_LENGTH`. -/
def padPassword (pwd : List Nat) : List Nat :=
  pwd.take MAX_PASSWORD_LENGTH ++
    List.replicate (MAX_PASSWORD_LENGTH - pwd.length) 0

/-- Replace a zero byte by the byte value 1 (the `\x00 → \x01` substitution
applied to the digest in `_login`). -/
def zeroToOne (b : Nat) : Nat := if b = 0 then 1 else b

/-- The authentication digest computed by `_login`: MD5 over
challenge ‖ padded password, with every zero byte replaced by 1. -/
def encodePassword (challenge pwd : List Nat) : List Nat :=
  (md5 (challenge ++ padPassword pwd)).map zeroToOne

theorem padPassword_length (pwd : List Nat) :
    (padPassword pwd).length = MAX_PASSWORD_LENGTH := by
  simp [padPassword, MAX_PASSWORD_LENGTH]
  omega

/-! ## Paths

`os.path.dirname` / `os.path.basename` (POSIX flavour), embedded over the
character list of the path. -/

/-- `p.rfind('/') + 1`: one past the index of the last slash, `0` if none. -/
def rfindSlashSucc (cs : List Char) : Nat :=
  match cs.reverse.findIdx? (fun ch => decide (ch = '/')) with
  | none => 0
  | some j => cs.length - j

def basenameL (cs : List Char) : List Char := cs.drop (rfindSlashSucc cs)

def dirnameL (cs : List Char) : List Char :=
  let head := cs.take (rfindSlashSucc cs)
  if head ≠ [] ∧ ¬ head.all (fun ch => decide (ch = '/')) then
    (head.reverse.dropWhile (fun ch => decide (ch = '/'))).reverse
  else head

def basename (p : String) : String := String.mk (basenameL p.data)

def dirname (p : String) : String := String.mk (dirnameL p.data)

/-! ## Catalog model, rows and queries

Modelled from the spec: the catalog data model (`models.py`, an out-of-scope
collaborator) only names which columns exist per entity; the session engine
treats entity+column identifiers as opaque lookups. -/

/-- Modelled from the spec: the wire column identifiers of the catalog model
(two identity columns per entity, four per metadata table). -/
inductive Column where
  | collectionId | collectionName
  | dataObjectId | dataObjectName | dataObjectCollectionId
  | resourceId | resourceName
  | userId | userName
  | dataObjectMetaId | dataObjectMetaName | dataObjectMetaValue
  | dataObjectMetaUnits
  | collectionMetaId | collectionMetaName | collectionMetaValue
  | collectionMetaUnits
  | resourceMetaId | resourceMetaName | resourceMetaValue | resourceMetaUnits
  | userMetaId | userMetaName | userMetaValue | userMetaUnits
deriving DecidableEq

/-- A catalog cell value: a string or an integer. -/
inductive QValue where
  | s (v : String)
  | i (v : Int)
deriving DecidableEq

def QValue.asStr : QValue → String
  | .s v => v
  | .i n => toString n

/-- The four entity model classes accepted by the metadata operations. -/
inductive ModelCls where
  | DataObject | Collection | Resource | User
deriving DecidableEq

/-- Modelled from the spec: the columns owned by each entity model class. -/
def columnsOf : ModelCls → List Column
  | .DataObject => [.dataObjectId, .dataObjectName, .dataObjectCollectionId]
  | .Collection => [.collectionId, .collectionName]
  | .Resource => [.resourceId, .resourceName]
  | .User => [.userId, .userName]

/-- The four metadata model classes (`DataObjectMeta` … `UserMeta`). -/
inductive MetaModel where
  | DataObjectMeta | CollectionMeta | ResourceMeta | UserMeta
deriving DecidableEq

def MetaModel.idCol : MetaModel → Column
  | .DataObjectMeta => .dataObjectMetaId
  | .CollectionMeta => .collectionMetaId
  | .ResourceMeta => .resourceMetaId
  | .UserMeta => .userMetaId

def MetaModel.nameCol : MetaModel → Column
  | .DataObjectMeta => .dataObjectMetaName
  | .CollectionMeta => .collectionMetaName
  | .ResourceMeta => .resourceMetaName
  | .UserMeta => .userMetaName

def MetaModel.valueCol : MetaModel → Column
  | .DataObjectMeta => .dataObjectMetaValue
  | .CollectionMeta => .collectionMetaValue
  | .ResourceMeta => .resourceMetaValue
  | .UserMeta => .userMetaValue

def MetaModel.unitsCol : MetaModel → Column
  | .DataObjectMeta => .dataObjectMetaUnits
  | .CollectionMeta => .collectionMetaUnits
  | .ResourceMeta => .resourceMetaUnits
  | .UserMeta => .userMetaUnits

/-- An equality condition `entity.column == value`. -/
def Criterion : Type := Column × QValue

instance : DecidableEq Criterion := instDecidableEqProd

/-- A query: the ordered requested columns plus a conjunction of equality
conditions (`Query` from the query module, holding `columns` and the
accumulated filter criteria). -/
structure Query where
  columns : List Column
  criteria : List Criterion
deriving DecidableEq

/-- `Query.filter`: append one equality condition. -/
def Query.filter (q : Query) (c : Criterion) : Query :=
  ⟨q.columns, q.criteria ++ [c]⟩

/-- `session.query(ModelClass)`: request all columns of one entity. -/
def queryModel (m : ModelCls) : Query := ⟨columnsOf m, []⟩

/-- A decoded result row: column/value pairs in response order. -/
def Row : Type := List (Column × QValue)

instance : DecidableEq Row := by unfold Row; exact inferInstance

/-- Row lookup by requested column key. -/
def Row.get (r : Row) (c : Column) : QValue :=
  match r.find? (fun p => decide (p.1 = c)) with
  | some p => p.2
  | none => .s ""

/-- Modelled from the spec: the decoded tabular query response
(`GenQueryOut` of the message module, not under `src/`): the answered
columns and the ordered rows. -/
structure GenQueryOut where
  columns : List Column
  rows : List Row
deriving DecidableEq

/-- Modelled from the spec: `empty_gen_query_out(keys)` builds a zero-row
table over the originally requested columns. -/
def empty_gen_query_out (cols : List Column) : GenQueryOut := ⟨cols, []⟩

/-- Modelled from the spec: `ResultSet` (results module, not under `src/`)
wraps a decoded table; its length is the number of rows and rows are
indexable by position and by requested column key. -/
structure ResultSet where
  raw : GenQueryOut
deriving DecidableEq

def ResultSet.length (r : ResultSet) : Nat := r.raw.rows.length

def ResultSet.getRow (r : ResultSet) (i : Nat) : Row := r.raw.rows.getD i []

/-! ## Errors and envelopes -/

/-- The failure taxonomy of the session engine: mapped remote status codes,
the explicit login failure, transport/decode failures, the dictionary
`KeyError`, and the two local does-not-exist errors raised by the resolve
operations. -/
inductive IErr where
  | remote (code : Int)
  | authFailure
  | transport
  | protocol
  | keyError
  | collectionDoesNotExist
  | dataObjectDoesNotExist
deriving DecidableEq

/-- Modelled from the spec: the status code of the "no rows found" error
kind (`CAT_NO_ROWS_FOUND` of the exception module, not under `src/`). -/
def CAT_NO_ROWS_FOUND : Int := -808000

/-- Modelled from the spec: the status-code → error-kind lookup
(`get_exception_by_code` of the exception module, not under `src/`); error
kinds are in one-to-one correspondence with raw codes. -/
def get_exception_by_code (code : Int) : IErr := .remote code

/-- The decoded structured body of a received envelope. -/
inductive RespBody where
  | empty
  | authRequestOut (challenge : List Nat)
  | fileLseekOut (offset : Int)
  | genQueryOut (g : GenQueryOut)
deriving DecidableEq

/-- A received wire envelope: type tag, signed status/info field, the
error-segment flag, the structured body and the raw byte payload. -/
structure Envelope where
  msgType : String
  int_info : Int
  error : Bool
  body : RespBody
  bs : List Nat
deriving DecidableEq

/-- `get_main_message(authRequestOut).challenge`. -/
def Envelope.getChallenge (e : Envelope) : Except IErr (List Nat) :=
  match e.body with
  | .authRequestOut c => .ok c
  | _ => .error .protocol

/-- `get_main_message(GenQueryOut)`. -/
def Envelope.getGenQueryOut (e : Envelope) : Except IErr GenQueryOut :=
  match e.body with
  | .genQueryOut g => .ok g
  | _ => .error .protocol

/-- `get_main_message(fileLseekOut).offset`. -/
def Envelope.getLseekOut (e : Envelope) : Except IErr Int :=
  match e.body with
  | .fileLseekOut off => .ok off
  | _ => .error .protocol

/-! ## Request messages -/

/-- The structured body of a request message. -/
inductive ReqBody where
  | empty
  | authResponseInp (response : List Nat) (username : String)
  | dataObjInp (objPath : String) (createMode : Nat) (openFlags : Int)
      (offset : Int) (dataSize : Int) (numThreads : Nat) (oprType : Nat)
      (keyValPairs : List (String × String))
  | dataObjReadInp (l1descInx : Int) (len : Nat)
  | dataObjWriteInp (dataObjInx : Int) (len : Nat)
  | fileLseekInp (fileInx : Int) (offset : Int) (whence : Int)
  | dataObjCloseInp (l1descInx : Int)
  | modAVUMetadataInp (args : List String)
  | genQueryInp (columns : List Column) (criteria : List Criterion)
deriving DecidableEq

/-- A sent wire message: type tag, operation code (`int_info`), structured
body and raw byte payload. -/
structure SentMsg where
  msgType : String
  int_info : Int
  body : ReqBody
  bs : List Nat
deriving DecidableEq

/-- Modelled from the spec: `api_number['DATA_OBJ_CREATE_AN']` — the numeric
operation-code registry is an out-of-scope collaborator; the development
depends only on these codes being distinct from the authentication codes
703/704. -/
def DATA_OBJ_CREATE_AN : Int := 601

/-- Modelled from the spec: `api_number['DATA_OBJ_OPEN_AN']`. -/
def DATA_OBJ_OPEN_AN : Int := 602

/-- Modelled from the spec: `api_number['DATA_OBJ_READ201_AN']`. -/
def DATA_OBJ_READ201_AN : Int := 675

/-- Modelled from the spec: `api_number['DATA_OBJ_WRITE201_AN']`. -/
def DATA_OBJ_WRITE201_AN : Int := 676

/-- Modelled from the spec: `api_number['DATA_OBJ_LSEEK201_AN']`. -/
def DATA_OBJ_LSEEK201_AN : Int := 674

/-- Modelled from the spec: `api_number['DATA_OBJ_CLOSE201_AN']`. -/
def DATA_OBJ_CLOSE201_AN : Int := 673

/-- Modelled from the spec: `api_number['DATA_OBJ_UNLINK_AN']`. -/
def DATA_OBJ_UNLINK_AN : Int := 615

/-- Modelled from the spec: `api_number['MOD_AVU_METADATA_AN']`. -/
def MOD_AVU_METADATA_AN : Int := 706

/-- The bodiless authentication request (`int_info=703`). -/
def auth_req : SentMsg := ⟨"RODS_API_REQ", 703, .empty, []⟩

/-- The authentication response (`int_info=704`) carrying digest and user. -/
def pwd_request (response : List Nat) (username : String) : SentMsg :=
  ⟨"RODS_API_REQ", 704, .authResponseInp response username, []⟩

/-- The generic query request (`int_info=702`). -/
def genQueryMsg (q : Query) : SentMsg :=
  ⟨"RODS_API_REQ", 702, .genQueryInp q.columns q.criteria, []⟩

/-- The create request: mode `0644`, flags 0, size -1, default metadata. -/
def createMsg (path : String) : SentMsg :=
  ⟨"RODS_API_REQ", DATA_OBJ_CREATE_AN,
   .dataObjInp path 420 0 0 (-1) 0 0 [("dataType", "generic")], []⟩

def openMsg (path : String) (mode : Int) : SentMsg :=
  ⟨"RODS_API_REQ", DATA_OBJ_OPEN_AN,
   .dataObjInp path 0 mode 0 (-1) 0 0 [], []⟩

def readMsg (desc : Int) (size : Nat) : SentMsg :=
  ⟨"RODS_API_REQ", DATA_OBJ_READ201_AN, .dataObjReadInp desc size, []⟩

def writeMsg (desc : Int) (payload : List Nat) : SentMsg :=
  ⟨"RODS_API_REQ", DATA_OBJ_WRITE201_AN,
   .dataObjWriteInp desc payload.length, payload⟩

def lseekMsg (desc : Int) (offset whence : Int) : SentMsg :=
  ⟨"RODS_API_REQ", DATA_OBJ_LSEEK201_AN,
   .fileLseekInp desc offset whence, []⟩

def closeMsg (desc : Int) : SentMsg :=
  ⟨"RODS_API_REQ", DATA_OBJ_CLOSE201_AN, .dataObjCloseInp desc, []⟩

def unlinkMsg (path : String) : SentMsg :=
  ⟨"RODS_API_REQ", DATA_OBJ_UNLINK_AN,
   .dataObjInp path 0 0 0 (-1) 0 0 [], []⟩

def modAVUMsg (args : List String) : SentMsg :=
  ⟨"RODS_API_REQ", MOD_AVU_METADATA_AN, .modAVUMetadataInp args, []⟩

/-- Is this one of the two authentication-handshake messages? -/
def authNum (m : SentMsg) : Bool :=
  m.int_info == 703 || m.int_info == 704

/-! ## Wrapper objects -/

/-- Modelled from the spec: `iRODSCollection` (collection module, not under
`src/`) caches the previously returned catalog row. -/
structure IRodsCollection where
  row : Row
deriving DecidableEq

/-- The cached collection id drawn from the wrapped row. -/
def IRodsCollection.id (c : IRodsCollection) : Int :=
  match c.row.get .collectionId with
  | .i v => v
  | .s _ => 0

/-- Modelled from the spec: `iRODSDataObject` (data-object module, not under
`src/`) caches the parent collection wrapper and the returned row. -/
structure IRodsDataObject where
  parent : IRodsCollection
  row : Row
deriving DecidableEq

/-- Modelled from the spec: `iRODSMeta` (meta module, not under `src/`): a
(name, value, units) triple plus an optional catalog-assigned id. -/
structure IRodsMeta where
  name : String
  value : String
  units : String
  id : Option QValue := none
deriving DecidableEq

/-! ## The session state and the operation monad

An operation maps a session state to a result (or failure), the successor
state, and the ordered list of messages it sent, each paired with the value
of the `authenticated` flag at the moment it was sent. -/

/-- The session: the lazily set `authenticated` flag, the configured
identity/password, and the scripted inbox standing for the socket's
incoming byte stream. -/
structure SessionState where
  authenticated : Bool
  user : String
  password : List Nat
  inbox : List Envelope
deriving DecidableEq

abbrev Trace := List (SentMsg × Bool)

abbrev OpM (α : Type) :=
  SessionState → Except IErr α × SessionState × Trace

def opPure {α : Type} (a : α) : OpM α := fun st => (.ok a, st, [])

def opFail {α : Type} (e : IErr) : OpM α := fun st => (.error e, st, [])

def opBind {α β : Type} (f : OpM α) (g : α → OpM β) : OpM β := fun st =>
  match f st with
  | (.error e, st1, t1) => (.error e, st1, t1)
  | (.ok a, st1, t1) =>
    match g a st1 with
    | (r, st2, t2) => (r, st2, t1 ++ t2)

instance : Monad OpM where
  pure := opPure
  bind := opBind

/-- `self._send(message)`: record the message with the current flag. -/
def sendOp (m : SentMsg) : OpM Unit := fun st =>
  (.ok (), st, [(m, st.authenticated)])

/-- `self._recv()`: consume the next incoming envelope; a negative status
field is raised as the mapped error kind before the body is interpreted. -/
def recvOp : OpM Envelope := fun st =>
  match st.inbox with
  | [] => (.error .transport, st, [])
  | e :: rest =>
    if e.int_info < 0 then
      (.error (get_exception_by_code e.int_info),
       { st with inbox := rest }, [])
    else (.ok e, { st with inbox := rest }, [])

/-- Lift a pure decode result into the operation monad. -/
def liftE {α : Type} (r : Except IErr α) : OpM α := fun st => (r, st, [])

def getState : OpM SessionState := fun st => (.ok st, st, [])

def setAuth (b : Bool) : OpM Unit := fun st =>
  (.ok (), { st with authenticated := b }, [])

/-- `try: … except CAT_NO_ROWS_FOUND: handler`. -/
def tryCatchNoRows {α : Type} (f handler : OpM α) : OpM α := fun st =>
  match f st with
  | (.error e, st1, t1) =>
    if e = .remote CAT_NO_ROWS_FOUND then
      match handler st1 with
      | (r, st2, t2) => (r, st2, t1 ++ t2)
    else (.error e, st1, t1)
  | ok => ok

/-! ## The session operations (from `irods/session.py`) -/

/-- `_login`: the two-round challenge/response handshake. -/
def _login : OpM Unit := do
  sendOp auth_req
  let challenge_msg ← recvOp
  let challenge ← liftE challenge_msg.getChallenge
  let st ← getState
  let encoded_pwd := encodePassword challenge st.password
  sendOp (pwd_request encoded_pwd st.user)
  let auth_response ← recvOp
  if auth_response.error then opFail .authFailure else setAuth true

/-- `if not self.authenticated: self._login()`. -/
def ensureAuth : OpM Unit := do
  let st ← getState
  if st.authenticated then pure () else _login

/-- `execute_query`: send the query request; swallow exactly the
"no rows found" remote kind into an empty result set over the originally
requested columns. -/
def execute_query (q : Query) : OpM ResultSet := do
  ensureAuth
  sendOp (genQueryMsg q)
  tryCatchNoRows
    (do
      let result_message ← recvOp
      let results ← liftE result_message.getGenQueryOut
      pure (ResultSet.mk results))
    (pure (ResultSet.mk (empty_gen_query_out q.columns)))

/-- Modelled from the spec: `Query.all()` (query module, not under `src/`)
executes the built query through the owning session. -/
def queryAll (q : Query) : OpM ResultSet := execute_query q

/-- `get_collection`: exact-path query over the collection entity; exactly
one match required. -/
def get_collection (path : String) : OpM IRodsCollection := do
  ensureAuth
  let query := (queryModel .Collection).filter (.collectionName, .s path)
  let results ← execute_query query
  if results.length = 1 then pure (IRodsCollection.mk (results.getRow 0))
  else opFail .collectionDoesNotExist

/-- `get_data_object`: resolve the parent collection, then query the object
entity by basename and parent collection id; exactly one match required. -/
def get_data_object (path : String) : OpM IRodsDataObject := do
  ensureAuth
  let parent ← get_collection (dirname path)
  let results ← queryAll
    (((queryModel .DataObject).filter
        (.dataObjectName, .s (basename path))).filter
      (.dataObjectCollectionId, .i parent.id))
  if results.length = 1 then
    pure (IRodsDataObject.mk parent (results.getRow 0))
  else opFail .dataObjectDoesNotExist

/-- `close_file`: close a descriptor. -/
def close_file (desc : Int) : OpM Unit := do
  ensureAuth
  sendOp (closeMsg desc)
  let _ ← recvOp
  pure ()

/-- `create_data_object`: create, close the descriptor returned in the
response status field, then resolve the object freshly by path. -/
def create_data_object (path : String) : OpM IRodsDataObject := do
  ensureAuth
  sendOp (createMsg path)
  let response ← recvOp
  let desc := response.int_info
  close_file desc
  get_data_object path

/-- `open_file`: open by path, returning the descriptor from the status
field. -/
def open_file (path : String) (mode : Int) : OpM Int := do
  ensureAuth
  sendOp (openMsg path mode)
  let response ← recvOp
  pure response.int_info

/-- `read_file`: read up to `size` bytes, returned as the raw payload. -/
def read_file (desc : Int) (size : Nat) : OpM (List Nat) := do
  ensureAuth
  sendOp (readMsg desc size)
  let response ← recvOp
  pure response.bs

/-- `write_file`: write the payload, returning the accepted byte count from
the status field. -/
def write_file (desc : Int) (payload : List Nat) : OpM Int := do
  ensureAuth
  sendOp (writeMsg desc payload)
  let response ← recvOp
  pure response.int_info

/-- `seek_file`: forward (descriptor, offset, whence) and return the offset
reported in the response body. -/
def seek_file (desc : Int) (offset whence : Int) : OpM Int := do
  ensureAuth
  sendOp (lseekMsg desc offset whence)
  let response ← recvOp
  liftE response.getLseekOut

/-- `unlink_data_object`: delete by path. -/
def unlink_data_object (path : String) : OpM Unit := do
  ensureAuth
  sendOp (unlinkMsg path)
  let _ ← recvOp
  pure ()

/-- The resource-type discriminator dictionary used by all metadata
operations; note `User` maps to the same letter as `Resource`. -/
def _model_class_to_resource_type : ModelCls → Char
  | .DataObject => 'd'
  | .Collection => 'c'
  | .Resource => 'r'
  | .User => 'r'

/-- The discriminator → metadata-model dispatch dictionary of `get_meta`
(it has a dedicated `'u'` entry). -/
def metaModelDict (c : Char) : Option MetaModel :=
  if c = 'd' then some .DataObjectMeta
  else if c = 'c' then some .CollectionMeta
  else if c = 'r' then some .ResourceMeta
  else if c = 'u' then some .UserMeta
  else none

/-- The discriminator → filter-conditions dispatch dictionary of `get_meta`
(it has a dedicated `'u'` entry). -/
def metaConditionsDict (path : String) (c : Char) : Option (List Criterion) :=
  if c = 'd' then
    some [(.collectionName, .s (dirname path)),
          (.dataObjectName, .s (basename path))]
  else if c = 'c' then some [(.collectionName, .s path)]
  else if c = 'r' then some [(.resourceName, .s path)]
  else if c = 'u' then some [(.userName, .s path)]
  else none

/-- `get_meta`: query the metadata table selected by the discriminator and
wrap each row as an AVU triple. -/
def get_meta (model_cls : ModelCls) (path : String) :
    OpM (List IRodsMeta) := do
  let resource_type := _model_class_to_resource_type model_cls
  match metaModelDict resource_type,
      metaConditionsDict path resource_type with
  | some model, some conditions =>
    let results ← queryAll
      ⟨[model.idCol, model.nameCol, model.valueCol, model.unitsCol],
       conditions⟩
    pure (results.raw.rows.map (fun row =>
      ⟨(row.get model.nameCol).asStr, (row.get model.valueCol).asStr,
       (row.get model.unitsCol).asStr, some (row.get model.idCol)⟩))
  | _, _ => opFail .keyError

/-- `add_meta`: one modify-AVU request with verb `"add"`; note the absence
of an authentication check. -/
def add_meta (model_cls : ModelCls) (path : String) (meta : IRodsMeta) :
    OpM Unit := do
  let resource_type := _model_class_to_resource_type model_cls
  sendOp (modAVUMsg
    ["add", "-".push resource_type, path, meta.name, meta.value, meta.units])
  let _ ← recvOp
  pure ()

/-- `remove_meta`: one modify-AVU request with verb `"rm"`; note the absence
of an authentication check. -/
def remove_meta (model_cls : ModelCls) (path : String) (meta : IRodsMeta) :
    OpM Unit := do
  let resource_type := _model_class_to_resource_type model_cls
  sendOp (modAVUMsg
    ["rm", "-".push resource_type, path, meta.name, meta.value, meta.units])
  let _ ← recvOp
  pure ()

/-- `copy_meta`: one modify-AVU request with verb `"cp"`; note the absence
of an authentication check. -/
def copy_meta (src_model_cls dest_model_cls : ModelCls) (src dest : String) :
    OpM Unit := do
  let src_resource_type := _model_class_to_resource_type src_model_cls
  let dest_resource_type := _model_class_to_resource_type dest_model_cls
  sendOp (modAVUMsg
    ["cp", "-".push src_resource_type, "-".push dest_resource_type,
     src, dest])
  let _ ← recvOp
  pure ()

/-! ## The public operations of claim C1 -/

/-- One invocation of a public session operation, as listed by the spec's
authentication invariant. -/
inductive OpCall where
  | getCollection (path : String)
  | getDataObject (path : String)
  | createDataObject (path : String)
  | openFile (path : String) (mode : Int)
  | readFile (desc : Int) (size : Nat)
  | writeFile (desc : Int) (payload : List Nat)
  | seekFile (desc : Int) (offset whence : Int)
  | closeFile (desc : Int)
  | unlinkDataObject (path : String)
  | addMeta (m : ModelCls) (path : String) (meta : IRodsMeta)
  | removeMeta (m : ModelCls) (path : String) (meta : IRodsMeta)
  | copyMeta (src dest : ModelCls) (s d : String)
  | executeQuery (q : Query)

/-- The three metadata-modifying operations. -/
def OpCall.isMetaMod : OpCall → Bool
  | .addMeta _ _ _ | .removeMeta _ _ _ | .copyMeta _ _ _ _ => true
  | _ => false

/-- Run one public operation, discarding its typed result. -/
def applyOp : OpCall → OpM Unit
  | .getCollection path => opBind (get_collection path) fun _ => opPure ()
  | .getDataObject path => opBind (get_data_object path) fun _ => opPure ()
  | .createDataObject path =>
    opBind (create_data_object path) fun _ => opPure ()
  | .openFile path mode => opBind (open_file path mode) fun _ => opPure ()
  | .readFile desc size => opBind (read_file desc size) fun _ => opPure ()
  | .writeFile desc payload =>
    opBind (write_file desc payload) fun _ => opPure ()
  | .seekFile desc offset whence =>
    opBind (seek_file desc offset whence) fun _ => opPure ()
  | .closeFile desc => close_file desc
  | .unlinkDataObject path => unlink_data_object path
  | .addMeta m path meta => add_meta m path meta
  | .removeMeta m path meta => remove_meta m path meta
  | .copyMeta src dest s d => copy_meta src dest s d
  | .executeQuery q => opBind (execute_query q) fun _ => opPure ()

/-! ## Trace predicates and combinator lemmas -/

/-- Every message this operation ever sends is an authentication-handshake
message. -/
def TraceAuthNum {α : Type} (f : OpM α) : Prop :=
  ∀ st p, p ∈ (f st).2.2 → authNum p.1 = true

/-- Starting authenticated, the operation ends authenticated. -/
def PreservesAuth {α : Type} (f : OpM α) : Prop :=
  ∀ st, st.authenticated = true → ((f st).2.1).authenticated = true

/-- Starting authenticated, every sent message is flagged authenticated. -/
def AuthedTrace {α : Type} (f : OpM α) : Prop :=
  ∀ st, st.authenticated = true → ∀ p ∈ (f st).2.2, p.2 = true

/-- From any state, every non-handshake message is sent flagged
authenticated. -/
def SafeTrace {α : Type} (f : OpM α) : Prop :=
  ∀ st p, p ∈ (f st).2.2 → authNum p.1 = false → p.2 = true

/-- Whenever the operation succeeds, the final state is authenticated. -/
def OkImpAuth {α : Type} (f : OpM α) : Prop :=
  ∀ st a st1 t, f st = (.ok a, st1, t) → st1.authenticated = true

theorem opM_bind_def {α β : Type} (f : OpM α) (g : α → OpM β) :
    (f >>= g) = opBind f g := rfl

theorem opM_pure_def {α : Type} (a : α) : (pure a : OpM α) = opPure a := rfl

theorem opBind_eq_error {α β : Type} {f : OpM α} (g : α → OpM β)
    {st : SessionState} {e : IErr} {st1 : SessionState} {t1 : Trace}
    (h : f st = (.error e, st1, t1)) :
    opBind f g st = (.error e, st1, t1) := by
  simp [opBind, h]

theorem opBind_eq_ok {α β : Type} {f : OpM α} (g : α → OpM β)
    {st : SessionState} {a : α} {st1 : SessionState} {t1 : Trace}
    {r2 : Except IErr β} {st2 : SessionState} {t2 : Trace}
    (h : f st = (.ok a, st1, t1)) (h2 : g a st1 = (r2, st2, t2)) :
    opBind f g st = (r2, st2, t1 ++ t2) := by
  simp [opBind, h, h2]

theorem recvOp_trace (st : SessionState) : (recvOp st).2.2 = [] := by
  simp only [recvOp]
  rcases st.inbox with _ | ⟨e, rest⟩
  · rfl
  · by_cases h : e.int_info < 0 <;> simp [h]

theorem recvOp_auth (st : SessionState) :
    ((recvOp st).2.1).authenticated = st.authenticated := by
  simp only [recvOp]
  rcases st.inbox with _ | ⟨e, rest⟩
  · rfl
  · by_cases h : e.int_info < 0 <;> simp [h]

theorem tryCatch_eq_ok {α : Type} {f h : OpM α} {st : SessionState} {a : α}
    {st1 : SessionState} {t1 : Trace} (he : f st = (.ok a, st1, t1)) :
    tryCatchNoRows f h st = (.ok a, st1, t1) := by
  simp [tryCatchNoRows, he]

theorem tryCatch_eq_error_other {α : Type} {f h : OpM α} {st : SessionState}
    {e : IErr} {st1 : SessionState} {t1 : Trace}
    (he : f st = (.error e, st1, t1)) (hne : e ≠ .remote CAT_NO_ROWS_FOUND) :
    tryCatchNoRows f h st = (.error e, st1, t1) := by
  simp [tryCatchNoRows, he, hne]

theorem tryCatch_eq_error_norows {α : Type} {f h : OpM α}
    {st st1 : SessionState} {t1 : Trace} {r2 : Except IErr α}
    {st2 : SessionState} {t2 : Trace}
    (he : f st = (.error (.remote CAT_NO_ROWS_FOUND), st1, t1))
    (h2 : h st1 = (r2, st2, t2)) :
    tryCatchNoRows f h st = (r2, st2, t1 ++ t2) := by
  simp [tryCatchNoRows, he, h2]

theorem traceAuthNum_opBind {α β : Type} {f : OpM α} {g : α → OpM β}
    (hf : TraceAuthNum f) (hg : ∀ a, TraceAuthNum (g a)) :
    TraceAuthNum (opBind f g) := by
  intro st p hp
  rcases hfe : f st with ⟨r, st1, t1⟩
  cases r with
  | error e =>
    rw [opBind_eq_error g hfe] at hp
    exact hf st p (by rw [hfe]; exact hp)
  | ok a =>
    rcases hge : g a st1 with ⟨r2, st2, t2⟩
    rw [opBind_eq_ok g hfe hge] at hp
    have hp' : p ∈ t1 ++ t2 := hp
    rcases List.mem_append.mp hp' with h1 | h2
    · exact hf st p (by rw [hfe]; exact h1)
    · exact hg a st1 p (by rw [hge]; exact h2)

theorem traceAuthNum_sendOp (m : SentMsg) (h : authNum m = true) :
    TraceAuthNum (sendOp m) := by
  intro st p hp
  have hp' : p ∈ [(m, st.authenticated)] := hp
  simp only [List.mem_singleton] at hp'
  rw [hp']
  exact h

theorem traceAuthNum_recvOp : TraceAuthNum recvOp := by
  intro st p hp
  rw [recvOp_trace] at hp
  simp at hp

theorem traceAuthNum_opPure {α : Type} (a : α) : TraceAuthNum (opPure a) := by
  intro st p hp
  simp [opPure] at hp

theorem traceAuthNum_opFail {α : Type} (e : IErr) :
    TraceAuthNum (opFail e : OpM α) := by
  intro st p hp
  simp [opFail] at hp

theorem traceAuthNum_liftE {α : Type} (r : Except IErr α) :
    TraceAuthNum (liftE r) := by
  intro st p hp
  simp [liftE] at hp

theorem traceAuthNum_getState : TraceAuthNum getState := by
  intro st p hp
  simp [getState] at hp

theorem traceAuthNum_setAuth (b : Bool) : TraceAuthNum (setAuth b) := by
  intro st p hp
  simp [setAuth] at hp

theorem preservesAuth_opBind {α β : Type} {f : OpM α} {g : α → OpM β}
    (hf : PreservesAuth f) (hg : ∀ a, PreservesAuth (g a)) :
    PreservesAuth (opBind f g) := by
  intro st hst
  have hf1 := hf st hst
  rcases hfe : f st with ⟨r, st1, t1⟩
  rw [hfe] at hf1
  cases r with
  | error e =>
    rw [opBind_eq_error g hfe]
    exact hf1
  | ok a =>
    have hg1 := hg a st1 hf1
    rcases hge : g a st1 with ⟨r2, st2, t2⟩
    rw [hge] at hg1
    rw [opBind_eq_ok g hfe hge]
    exact hg1

theorem preservesAuth_sendOp (m : SentMsg) : PreservesAuth (sendOp m) := by
  intro st h
  exact h

theorem preservesAuth_recvOp : PreservesAuth recvOp := by
  intro st h
  rw [recvOp_auth]
  exact h

theorem preservesAuth_opPure {α : Type} (a : α) : PreservesAuth (opPure a) := by
  intro st h
  exact h

theorem preservesAuth_opFail {α : Type} (e : IErr) :
    PreservesAuth (opFail e : OpM α) := by
  intro st h
  exact h

theorem preservesAuth_liftE {α : Type} (r : Except IErr α) :
    PreservesAuth (liftE r) := by
  intro st h
  exact h

theorem preservesAuth_getState : PreservesAuth getState := by
  intro st h
  exact h

theorem preservesAuth_setAuth_true : PreservesAuth (setAuth true) := by
  intro st h
  rfl

theorem preservesAuth_ite {α : Type} (c : Prop) [Decidable c] {f g : OpM α}
    (hf : PreservesAuth f) (hg : PreservesAuth g) :
    PreservesAuth (if c then f else g) := by
  by_cases h : c
  · simpa [h] using hf
  · simpa [h] using hg

theorem authedTrace_opBind {α β : Type} {f : OpM α} {g : α → OpM β}
    (hf : AuthedTrace f) (hfp : PreservesAuth f)
    (hg : ∀ a, AuthedTrace (g a)) : AuthedTrace (opBind f g) := by
  intro st hst p hp
  rcases hfe : f st with ⟨r, st1, t1⟩
  cases r with
  | error e =>
    rw [opBind_eq_error g hfe] at hp
    exact hf st hst p (by rw [hfe]; exact hp)
  | ok a =>
    have hst1 : st1.authenticated = true := by
      have := hfp st hst
      rw [hfe] at this
      exact this
    rcases hge : g a st1 with ⟨r2, st2, t2⟩
    rw [opBind_eq_ok g hfe hge] at hp
    have hp' : p ∈ t1 ++ t2 := hp
    rcases List.mem_append.mp hp' with h1 | h2
    · exact hf st hst p (by rw [hfe]; exact h1)
    · exact hg a st1 hst1 p (by rw [hge]; exact h2)

theorem authedTrace_sendOp (m : SentMsg) : AuthedTrace (sendOp m) := by
  intro st hst p hp
  have hp' : p ∈ [(m, st.authenticated)] := hp
  simp only [List.mem_singleton] at hp'
  rw [hp']
  exact hst

theorem authedTrace_recvOp : AuthedTrace recvOp := by
  intro st hst p hp
  rw [recvOp_trace] at hp
  simp at hp

theorem authedTrace_opPure {α : Type} (a : α) : AuthedTrace (opPure a) := by
  intro st hst p hp
  simp [opPure] at hp

theorem authedTrace_opFail {α : Type} (e : IErr) :
    AuthedTrace (opFail e : OpM α) := by
  intro st hst p hp
  simp [opFail] at hp

theorem authedTrace_liftE {α : Type} (r : Except IErr α) :
    AuthedTrace (liftE r) := by
  intro st hst p hp
  simp [liftE] at hp

theorem authedTrace_getState : AuthedTrace getState := by
  intro st hst p hp
  simp [getState] at hp

theorem authedTrace_setAuth (b : Bool) : AuthedTrace (setAuth b) := by
  intro st hst p hp
  simp [setAuth] at hp

theorem authedTrace_ite {α : Type} (c : Prop) [Decidable c] {f g : OpM α}
    (hf : AuthedTrace f) (hg : AuthedTrace g) :
    AuthedTrace (if c then f else g) := by
  by_cases h : c
  · simpa [h] using hf
  · simpa [h] using hg

theorem safeTrace_opBind {α β : Type} {f : OpM α} {g : α → OpM β}
    (hf : SafeTrace f) (hg : ∀ a, SafeTrace (g a)) :
    SafeTrace (opBind f g) := by
  intro st p hp hpriv
  rcases hfe : f st with ⟨r, st1, t1⟩
  cases r with
  | error e =>
    rw [opBind_eq_error g hfe] at hp
    exact hf st p (by rw [hfe]; exact hp) hpriv
  | ok a =>
    rcases hge : g a st1 with ⟨r2, st2, t2⟩
    rw [opBind_eq_ok g hfe hge] at hp
    have hp' : p ∈ t1 ++ t2 := hp
    rcases List.mem_append.mp hp' with h1 | h2
    · exact hf st p (by rw [hfe]; exact h1) hpriv
    · exact hg a st1 p (by rw [hge]; exact h2) hpriv

theorem safeTrace_opPure {α : Type} (a : α) : SafeTrace (opPure a) := by
  intro st p hp
  simp [opPure] at hp

theorem okAuth_opBind {α β : Type} {f : OpM α} {g : α → OpM β}
    (hg : ∀ x, OkImpAuth (g x)) : OkImpAuth (opBind f g) := by
  intro st b st' t h
  rcases hfe : f st with ⟨r, st1, t1⟩
  cases r with
  | error e =>
    rw [opBind_eq_error g hfe] at h
    simp at h
  | ok a =>
    rcases hge : g a st1 with ⟨r2, st2, t2⟩
    rw [opBind_eq_ok g hfe hge] at h
    have h' : r2 = .ok b ∧ st2 = st' ∧ t1 ++ t2 = t := by
      have := h
      simp only [Prod.mk.injEq] at this
      exact this
    exact hg a st1 b st' t2 (by rw [hge, h'.1, h'.2.1])

theorem preservesAuth_tryCatch {α : Type} {f handler : OpM α}
    (hf : PreservesAuth f) (hh : PreservesAuth handler) :
    PreservesAuth (tryCatchNoRows f handler) := by
  intro st hst
  have hf1 := hf st hst
  rcases hfe : f st with ⟨r, st1, t1⟩
  rw [hfe] at hf1
  cases r with
  | ok a =>
    rw [tryCatch_eq_ok hfe]
    exact hf1
  | error e =>
    by_cases hc : e = .remote CAT_NO_ROWS_FOUND
    · subst hc
      have hh1 := hh st1 hf1
      rcases hhe : handler st1 with ⟨r2, st2, t2⟩
      rw [hhe] at hh1
      rw [tryCatch_eq_error_norows hfe hhe]
      exact hh1
    · rw [tryCatch_eq_error_other hfe hc]
      exact hf1

theorem authedTrace_tryCatch {α : Type} {f handler : OpM α}
    (hf : AuthedTrace f) (hfp : PreservesAuth f) (hh : AuthedTrace handler) :
    AuthedTrace (tryCatchNoRows f handler) := by
  intro st hst p hp
  rcases hfe : f st with ⟨r, st1, t1⟩
  have hst1 : st1.authenticated = true := by
    have := hfp st hst
    rw [hfe] at this
    exact this
  cases r with
  | ok a =>
    rw [tryCatch_eq_ok hfe] at hp
    exact hf st hst p (by rw [hfe]; exact hp)
  | error e =>
    by_cases hc : e = .remote CAT_NO_ROWS_FOUND
    · subst hc
      rcases hhe : handler st1 with ⟨r2, st2, t2⟩
      rw [tryCatch_eq_error_norows hfe hhe] at hp
      have hp' : p ∈ t1 ++ t2 := hp
      rcases List.mem_append.mp hp' with h1 | h2
      · exact hf st hst p (by rw [hfe]; exact h1)
      · exact hh st1 hst1 p (by rw [hhe]; exact h2)
    · rw [tryCatch_eq_error_other hfe hc] at hp
      exact hf st hst p (by rw [hfe]; exact hp)

/-! ## Lemmas about the login handshake and the authentication guard -/

theorem traceAuthNum_login : TraceAuthNum _login := by
  unfold _login
  simp only [opM_bind_def, opM_pure_def]
  apply traceAuthNum_opBind (traceAuthNum_sendOp _ (by decide))
  intro _
  apply traceAuthNum_opBind traceAuthNum_recvOp
  intro challenge_msg
  apply traceAuthNum_opBind (traceAuthNum_liftE _)
  intro challenge
  apply traceAuthNum_opBind traceAuthNum_getState
  intro st
  apply traceAuthNum_opBind (traceAuthNum_sendOp _ (by simp [authNum, pwd_request]))
  intro _
  apply traceAuthNum_opBind traceAuthNum_recvOp
  intro auth_response
  by_cases h : auth_response.error = true
  · rw [if_pos h]
    exact traceAuthNum_opFail _
  · rw [if_neg h]
    exact traceAuthNum_setAuth _

theorem okAuth_setAuth_true : OkImpAuth (setAuth true) := by
  intro st a st1 t h
  simp only [setAuth, Prod.mk.injEq] at h
  rw [← h.2.1]

theorem okAuth_opFail {α : Type} (e : IErr) : OkImpAuth (opFail e : OpM α) := by
  intro st a st1 t h
  simp [opFail] at h

theorem okAuth_login : OkImpAuth _login := by
  unfold _login
  simp only [opM_bind_def, opM_pure_def]
  apply okAuth_opBind
  intro _
  apply okAuth_opBind
  intro cm
  apply okAuth_opBind
  intro ch
  apply okAuth_opBind
  intro st
  apply okAuth_opBind
  intro _
  apply okAuth_opBind
  intro ar
  by_cases h : ar.error = true
  · rw [if_pos h]
    exact okAuth_opFail _
  · rw [if_neg h]
    exact okAuth_setAuth_true

theorem opBind_sendOp_trace {β : Type} (m : SentMsg) (g : Unit → OpM β)
    (st : SessionState) :
    ((opBind (sendOp m) g) st).2.2 =
      (m, st.authenticated) :: (g () st).2.2 := by
  rcases hge : g () st with ⟨r, st2, t2⟩
  rw [opBind_eq_ok g (rfl : sendOp m st = (.ok (), st, [(m, st.authenticated)]))
    hge]
  simp [hge]

theorem login_trace_head (st : SessionState) :
    ((_login st).2.2).head? = some (auth_req, st.authenticated) := by
  unfold _login
  simp only [opM_bind_def]
  rw [opBind_sendOp_trace]
  rfl

theorem ensureAuth_eq_true (st : SessionState) (h : st.authenticated = true) :
    ensureAuth st = (.ok (), st, []) := by
  simp [ensureAuth, opM_bind_def, opM_pure_def, opBind, getState, opPure, h]

theorem ensureAuth_eq_false (st : SessionState)
    (h : st.authenticated = false) : ensureAuth st = _login st := by
  rcases hle : _login st with ⟨r, st1, t1⟩
  simp [ensureAuth, opM_bind_def, opM_pure_def, opBind, getState, h, hle]

theorem traceAuthNum_ensureAuth : TraceAuthNum ensureAuth := by
  intro st p hp
  cases hb : st.authenticated with
  | true =>
    rw [ensureAuth_eq_true st hb] at hp
    simp at hp
  | false =>
    rw [ensureAuth_eq_false st hb] at hp
    exact traceAuthNum_login st p hp

theorem preservesAuth_ensureAuth : PreservesAuth ensureAuth := by
  intro st h
  rw [ensureAuth_eq_true st h]
  exact h

theorem authedTrace_ensureAuth : AuthedTrace ensureAuth := by
  intro st hst p hp
  rw [ensureAuth_eq_true st hst] at hp
  simp at hp

theorem okAuth_ensureAuth : OkImpAuth ensureAuth := by
  intro st a st1 t h
  cases hb : st.authenticated with
  | true =>
    rw [ensureAuth_eq_true st hb] at h
    simp only [Prod.mk.injEq] at h
    rw [← h.2.1]
    exact hb
  | false =>
    rw [ensureAuth_eq_false st hb] at h
    exact okAuth_login st a st1 t h

/-- Any operation guarded by `ensureAuth` whose body has an authenticated
trace never sends a privileged message while the flag is false. -/
theorem safe_guard {β : Type} {body : Unit → OpM β}
    (hA : ∀ a, AuthedTrace (body a)) :
    SafeTrace (opBind ensureAuth body) := by
  intro st p hp hpriv
  rcases hfe : ensureAuth st with ⟨r, st1, t1⟩
  cases r with
  | error e =>
    rw [opBind_eq_error body hfe] at hp
    have := traceAuthNum_ensureAuth st p (by rw [hfe]; exact hp)
    rw [hpriv] at this
    exact absurd this (by simp)
  | ok a =>
    rcases hge : body a st1 with ⟨r2, st2, t2⟩
    rw [opBind_eq_ok body hfe hge] at hp
    have hp' : p ∈ t1 ++ t2 := hp
    rcases List.mem_append.mp hp' with h1 | h2
    · have := traceAuthNum_ensureAuth st p (by rw [hfe]; exact h1)
      rw [hpriv] at this
      exact absurd this (by simp)
    · have hst1 : st1.authenticated = true := okAuth_ensureAuth st a st1 t1 hfe
      exact hA a st1 hst1 p (by rw [hge]; exact h2)

/-- Any operation guarded by `ensureAuth`, invoked unauthenticated, sends
the handshake request first. -/
theorem guard_head {β : Type} (body : Unit → OpM β) (st : SessionState)
    (h : st.authenticated = false) :
    ((opBind ensureAuth body st).2.2).head? = some (auth_req, false) := by
  have hhead := login_trace_head st
  rw [h] at hhead
  rcases hfe : ensureAuth st with ⟨r, st1, t1⟩
  have ht1 : t1.head? = some (auth_req, false) := by
    have heq := hfe
    rw [ensureAuth_eq_false st h] at heq
    rw [heq] at hhead
    exact hhead
  cases r with
  | error e =>
    rw [opBind_eq_error body hfe]
    exact ht1
  | ok a =>
    rcases hge : body a st1 with ⟨r2, st2, t2⟩
    rw [opBind_eq_ok body hfe hge]
    show (t1 ++ t2).head? = _
    cases t1 with
    | nil => simp at ht1
    | cons x xs => simpa using ht1

theorem opBind_pure_trace {α : Type} (f : OpM α) (st : SessionState) :
    ((opBind f (fun _ => opPure ())) st).2.2 = (f st).2.2 := by
  rcases hfe : f st with ⟨r, st1, t1⟩
  cases r with
  | error e =>
    simp [opBind_eq_error (fun _ => opPure ()) hfe, hfe]
  | ok a =>
    simp [opBind_eq_ok (fun _ => opPure ())
      hfe (rfl : (fun _ : α => opPure ()) a st1 = (.ok (), st1, [])), hfe]

/-! ## Per-operation trace lemmas -/

theorem authedTrace_execute_query (q : Query) :
    AuthedTrace (execute_query q) := by
  unfold execute_query
  simp only [opM_bind_def, opM_pure_def]
  apply authedTrace_opBind authedTrace_ensureAuth preservesAuth_ensureAuth
  intro _
  apply authedTrace_opBind (authedTrace_sendOp _) (preservesAuth_sendOp _)
  intro _
  apply authedTrace_tryCatch
  · apply authedTrace_opBind authedTrace_recvOp preservesAuth_recvOp
    intro rm
    apply authedTrace_opBind (authedTrace_liftE _) (preservesAuth_liftE _)
    intro results
    exact authedTrace_opPure _
  · apply preservesAuth_opBind preservesAuth_recvOp
    intro rm
    apply preservesAuth_opBind (preservesAuth_liftE _)
    intro results
    exact preservesAuth_opPure _
  · exact authedTrace_opPure _

theorem preservesAuth_execute_query (q : Query) :
    PreservesAuth (execute_query q) := by
  unfold execute_query
  simp only [opM_bind_def, opM_pure_def]
  apply preservesAuth_opBind preservesAuth_ensureAuth
  intro _
  apply preservesAuth_opBind (preservesAuth_sendOp _)
  intro _
  apply preservesAuth_tryCatch
  · apply preservesAuth_opBind preservesAuth_recvOp
    intro rm
    apply preservesAuth_opBind (preservesAuth_liftE _)
    intro results
    exact preservesAuth_opPure _
  · exact preservesAuth_opPure _

theorem authedTrace_queryAll (q : Query) : AuthedTrace (queryAll q) :=
  authedTrace_execute_query q

theorem preservesAuth_queryAll (q : Query) : PreservesAuth (queryAll q) :=
  preservesAuth_execute_query q

theorem authedTrace_get_collection (path : String) :
    AuthedTrace (get_collection path) := by
  unfold get_collection
  simp only [opM_bind_def, opM_pure_def]
  apply authedTrace_opBind authedTrace_ensureAuth preservesAuth_ensureAuth
  intro _
  apply authedTrace_opBind (authedTrace_execute_query _)
    (preservesAuth_execute_query _)
  intro results
  exact authedTrace_ite _ (authedTrace_opPure _) (authedTrace_opFail _)

theorem preservesAuth_get_collection (path : String) :
    PreservesAuth (get_collection path) := by
  unfold get_collection
  simp only [opM_bind_def, opM_pure_def]
  apply preservesAuth_opBind preservesAuth_ensureAuth
  intro _
  apply preservesAuth_opBind (preservesAuth_execute_query _)
  intro results
  exact preservesAuth_ite _ (preservesAuth_opPure _) (preservesAuth_opFail _)

theorem authedTrace_get_data_object (path : String) :
    AuthedTrace (get_data_object path) := by
  unfold get_data_object
  simp only [opM_bind_def, opM_pure_def]
  apply authedTrace_opBind authedTrace_ensureAuth preservesAuth_ensureAuth
  intro _
  apply authedTrace_opBind (authedTrace_get_collection _)
    (preservesAuth_get_collection _)
  intro parent
  apply authedTrace_opBind (authedTrace_queryAll _) (preservesAuth_queryAll _)
  intro results
  exact authedTrace_ite _ (authedTrace_opPure _) (authedTrace_opFail _)

theorem preservesAuth_get_data_object (path : String) :
    PreservesAuth (get_data_object path) := by
  unfold get_data_object
  simp only [opM_bind_def, opM_pure_def]
  apply preservesAuth_opBind preservesAuth_ensureAuth
  intro _
  apply preservesAuth_opBind (preservesAuth_get_collection _)
  intro parent
  apply preservesAuth_opBind (preservesAuth_queryAll _)
  intro results
  exact preservesAuth_ite _ (preservesAuth_opPure _) (preservesAuth_opFail _)

theorem authedTrace_close_file (desc : Int) : AuthedTrace (close_file desc) := by
  unfold close_file
  simp only [opM_bind_def, opM_pure_def]
  apply authedTrace_opBind authedTrace_ensureAuth preservesAuth_ensureAuth
  intro _
  apply authedTrace_opBind (authedTrace_sendOp _) (preservesAuth_sendOp _)
  intro _
  apply authedTrace_opBind authedTrace_recvOp preservesAuth_recvOp
  intro _
  exact authedTrace_opPure _

theorem preservesAuth_close_file (desc : Int) :
    PreservesAuth (close_file desc) := by
  unfold close_file
  simp only [opM_bind_def, opM_pure_def]
  apply preservesAuth_opBind preservesAuth_ensureAuth
  intro _
  apply preservesAuth_opBind (preservesAuth_sendOp _)
  intro _
  apply preservesAuth_opBind preservesAuth_recvOp
  intro _
  exact preservesAuth_opPure _

theorem authedTrace_create_data_object (path : String) :
    AuthedTrace (create_data_object path) := by
  unfold create_data_object
  simp only [opM_bind_def, opM_pure_def]
  apply authedTrace_opBind authedTrace_ensureAuth preservesAuth_ensureAuth
  intro _
  apply authedTrace_opBind (authedTrace_sendOp _) (preservesAuth_sendOp _)
  intro _
  apply authedTrace_opBind authedTrace_recvOp preservesAuth_recvOp
  intro response
  apply authedTrace_opBind (authedTrace_close_file _)
    (preservesAuth_close_file _)
  intro _
  exact authedTrace_get_data_object _

theorem preservesAuth_create_data_object (path : String) :
    PreservesAuth (create_data_object path) := by
  unfold create_data_object
  simp only [opM_bind_def, opM_pure_def]
  apply preservesAuth_opBind preservesAuth_ensureAuth
  intro _
  apply preservesAuth_opBind (preservesAuth_sendOp _)
  intro _
  apply preservesAuth_opBind preservesAuth_recvOp
  intro response
  apply preservesAuth_opBind (preservesAuth_close_file _)
  intro _
  exact preservesAuth_get_data_object _

theorem authedTrace_open_file (path : String) (mode : Int) :
    AuthedTrace (open_file path mode) := by
  unfold open_file
  simp only [opM_bind_def, opM_pure_def]
  apply authedTrace_opBind authedTrace_ensureAuth preservesAuth_ensureAuth
  intro _
  apply authedTrace_opBind (authedTrace_sendOp _) (preservesAuth_sendOp _)
  intro _
  apply authedTrace_opBind authedTrace_recvOp preservesAuth_recvOp
  intro response
  exact authedTrace_opPure _

theorem authedTrace_read_file (desc : Int) (size : Nat) :
    AuthedTrace (read_file desc size) := by
  unfold read_file
  simp only [opM_bind_def, opM_pure_def]
  apply authedTrace_opBind authedTrace_ensureAuth preservesAuth_ensureAuth
  intro _
  apply authedTrace_opBind (authedTrace_sendOp _) (preservesAuth_sendOp _)
  intro _
  apply authedTrace_opBind authedTrace_recvOp preservesAuth_recvOp
  intro response
  exact authedTrace_opPure _

theorem authedTrace_write_file (desc : Int) (payload : List Nat) :
    AuthedTrace (write_file desc payload) := by
  unfold write_file
  simp only [opM_bind_def, opM_pure_def]
  apply authedTrace_opBind authedTrace_ensureAuth preservesAuth_ensureAuth
  intro _
  apply authedTrace_opBind (authedTrace_sendOp _) (preservesAuth_sendOp _)
  intro _
  apply authedTrace_opBind authedTrace_recvOp preservesAuth_recvOp
  intro response
  exact authedTrace_opPure _

theorem authedTrace_seek_file (desc : Int) (offset whence : Int) :
    AuthedTrace (seek_file desc offset whence) := by
  unfold seek_file
  simp only [opM_bind_def, opM_pure_def]
  apply authedTrace_opBind authedTrace_ensureAuth preservesAuth_ensureAuth
  intro _
  apply authedTrace_opBind (authedTrace_sendOp _) (preservesAuth_sendOp _)
  intro _
  apply authedTrace_opBind authedTrace_recvOp preservesAuth_recvOp
  intro response
  exact authedTrace_liftE _

theorem authedTrace_unlink_data_object (path : String) :
    AuthedTrace (unlink_data_object path) := by
  unfold unlink_data_object
  simp only [opM_bind_def, opM_pure_def]
  apply authedTrace_opBind authedTrace_ensureAuth preservesAuth_ensureAuth
  intro _
  apply authedTrace_opBind (authedTrace_sendOp _) (preservesAuth_sendOp _)
  intro _
  apply authedTrace_opBind authedTrace_recvOp preservesAuth_recvOp
  intro response
  exact authedTrace_opPure _

theorem safe_execute_query (q : Query) : SafeTrace (execute_query q) := by
  unfold execute_query
  simp only [opM_bind_def, opM_pure_def]
  apply safe_guard
  intro _
  apply authedTrace_opBind (authedTrace_sendOp _) (preservesAuth_sendOp _)
  intro _
  apply authedTrace_tryCatch
  · apply authedTrace_opBind authedTrace_recvOp preservesAuth_recvOp
    intro rm
    apply authedTrace_opBind (authedTrace_liftE _) (preservesAuth_liftE _)
    intro results
    exact authedTrace_opPure _
  · apply preservesAuth_opBind preservesAuth_recvOp
    intro rm
    apply preservesAuth_opBind (preservesAuth_liftE _)
    intro results
    exact preservesAuth_opPure _
  · exact authedTrace_opPure _

theorem safe_get_collection (path : String) :
    SafeTrace (get_collection path) := by
  unfold get_collection
  simp only [opM_bind_def, opM_pure_def]
  apply safe_guard
  intro _
  apply authedTrace_opBind (authedTrace_execute_query _)
    (preservesAuth_execute_query _)
  intro results
  exact authedTrace_ite _ (authedTrace_opPure _) (authedTrace_opFail _)

theorem safe_get_data_object (path : String) :
    SafeTrace (get_data_object path) := by
  unfold get_data_object
  simp only [opM_bind_def, opM_pure_def]
  apply safe_guard
  intro _
  apply authedTrace_opBind (authedTrace_get_collection _)
    (preservesAuth_get_collection _)
  intro parent
  apply authedTrace_opBind (authedTrace_queryAll _) (preservesAuth_queryAll _)
  intro results
  exact authedTrace_ite _ (authedTrace_opPure _) (authedTrace_opFail _)

theorem safe_close_file (desc : Int) : SafeTrace (close_file desc) := by
  unfold close_file
  simp only [opM_bind_def, opM_pure_def]
  apply safe_guard
  intro _
  apply authedTrace_opBind (authedTrace_sendOp _) (preservesAuth_sendOp _)
  intro _
  apply authedTrace_opBind authedTrace_recvOp preservesAuth_recvOp
  intro _
  exact authedTrace_opPure _

theorem safe_create_data_object (path : String) :
    SafeTrace (create_data_object path) := by
  unfold create_data_object
  simp only [opM_bind_def, opM_pure_def]
  apply safe_guard
  intro _
  apply authedTrace_opBind (authedTrace_sendOp _) (preservesAuth_sendOp _)
  intro _
  apply authedTrace_opBind authedTrace_recvOp preservesAuth_recvOp
  intro response
  apply authedTrace_opBind (authedTrace_close_file _)
    (preservesAuth_close_file _)
  intro _
  exact authedTrace_get_data_object _

theorem safe_open_file (path : String) (mode : Int) :
    SafeTrace (open_file path mode) := by
  unfold open_file
  simp only [opM_bind_def, opM_pure_def]
  apply safe_guard
  intro _
  apply authedTrace_opBind (authedTrace_sendOp _) (preservesAuth_sendOp _)
  intro _
  apply authedTrace_opBind authedTrace_recvOp preservesAuth_recvOp
  intro response
  exact authedTrace_opPure _

theorem safe_read_file (desc : Int) (size : Nat) :
    SafeTrace (read_file desc size) := by
  unfold read_file
  simp only [opM_bind_def, opM_pure_def]
  apply safe_guard
  intro _
  apply authedTrace_opBind (authedTrace_sendOp _) (preservesAuth_sendOp _)
  intro _
  apply authedTrace_opBind authedTrace_recvOp preservesAuth_recvOp
  intro response
  exact authedTrace_opPure _

theorem safe_write_file (desc : Int) (payload : List Nat) :
    SafeTrace (write_file desc payload) := by
  unfold write_file
  simp only [opM_bind_def, opM_pure_def]
  apply safe_guard
  intro _
  apply authedTrace_opBind (authedTrace_sendOp _) (preservesAuth_sendOp _)
  intro _
  apply authedTrace_opBind authedTrace_recvOp preservesAuth_recvOp
  intro response
  exact authedTrace_opPure _

theorem safe_seek_file (desc : Int) (offset whence : Int) :
    SafeTrace (seek_file desc offset whence) := by
  unfold seek_file
  simp only [opM_bind_def, opM_pure_def]
  apply safe_guard
  intro _
  apply authedTrace_opBind (authedTrace_sendOp _) (preservesAuth_sendOp _)
  intro _
  apply authedTrace_opBind authedTrace_recvOp preservesAuth_recvOp
  intro response
  exact authedTrace_liftE _

theorem safe_unlink_data_object (path : String) :
    SafeTrace (unlink_data_object path) := by
  unfold unlink_data_object
  simp only [opM_bind_def, opM_pure_def]
  apply safe_guard
  intro _
  apply authedTrace_opBind (authedTrace_sendOp _) (preservesAuth_sendOp _)
  intro _
  apply authedTrace_opBind authedTrace_recvOp preservesAuth_recvOp
  intro response
  exact authedTrace_opPure _

theorem head_execute_query (q : Query) (st : SessionState)
    (h : st.authenticated = false) :
    ((execute_query q st).2.2).head? = some (auth_req, false) := by
  unfold execute_query
  simp only [opM_bind_def, opM_pure_def]
  exact guard_head _ st h

theorem head_get_collection (path : String) (st : SessionState)
    (h : st.authenticated = false) :
    ((get_collection path st).2.2).head? = some (auth_req, false) := by
  unfold get_collection
  simp only [opM_bind_def, opM_pure_def]
  exact guard_head _ st h

theorem head_get_data_object (path : String) (st : SessionState)
    (h : st.authenticated = false) :
    ((get_data_object path st).2.2).head? = some (auth_req, false) := by
  unfold get_data_object
  simp only [opM_bind_def, opM_pure_def]
  exact guard_head _ st h

theorem head_create_data_object (path : String) (st : SessionState)
    (h : st.authenticated = false) :
    ((create_data_object path st).2.2).head? = some (auth_req, false) := by
  unfold create_data_object
  simp only [opM_bind_def, opM_pure_def]
  exact guard_head _ st h

theorem head_open_file (path : String) (mode : Int) (st : SessionState)
    (h : st.authenticated = false) :
    ((open_file path mode st).2.2).head? = some (auth_req, false) := by
  unfold open_file
  simp only [opM_bind_def, opM_pure_def]
  exact guard_head _ st h

theorem head_read_file (desc : Int) (size : Nat) (st : SessionState)
    (h : st.authenticated = false) :
    ((read_file desc size st).2.2).head? = some (auth_req, false) := by
  unfold read_file
  simp only [opM_bind_def, opM_pure_def]
  exact guard_head _ st h

theorem head_write_file (desc : Int) (payload : List Nat) (st : SessionState)
    (h : st.authenticated = false) :
    ((write_file desc payload st).2.2).head? = some (auth_req, false) := by
  unfold write_file
  simp only [opM_bind_def, opM_pure_def]
  exact guard_head _ st h

theorem head_seek_file (desc : Int) (offset whence : Int) (st : SessionState)
    (h : st.authenticated = false) :
    ((seek_file desc offset whence st).2.2).head? = some (auth_req, false) := by
  unfold seek_file
  simp only [opM_bind_def, opM_pure_def]
  exact guard_head _ st h

theorem head_close_file (desc : Int) (st : SessionState)
    (h : st.authenticated = false) :
    ((close_file desc st).2.2).head? = some (auth_req, false) := by
  unfold close_file
  simp only [opM_bind_def, opM_pure_def]
  exact guard_head _ st h

theorem head_unlink_data_object (path : String) (st : SessionState)
    (h : st.authenticated = false) :
    ((unlink_data_object path st).2.2).head? = some (auth_req, false) := by
  unfold unlink_data_object
  simp only [opM_bind_def, opM_pure_def]
  exact guard_head _ st h

theorem opBind_trace_nil {α β : Type} {f : OpM α} {g : α → OpM β}
    (st : SessionState) (hf : (f st).2.2 = [])
    (hg : ∀ a st', ((g a) st').2.2 = []) :
    ((opBind f g) st).2.2 = [] := by
  rcases hfe : f st with ⟨r, st1, t1⟩
  rw [hfe] at hf
  have hf' : t1 = [] := hf
  cases r with
  | error e => simp [opBind_eq_error g hfe, hf']
  | ok a =>
    rcases hge : g a st1 with ⟨r2, st2, t2⟩
    have hg1 : t2 = [] := by
      have := hg a st1
      rw [hge] at this
      exact this
    simp [opBind_eq_ok g hfe hge, hf', hg1]

theorem add_meta_trace (m : ModelCls) (path : String) (meta : IRodsMeta)
    (st : SessionState) :
    (add_meta m path meta st).2.2 =
      [(modAVUMsg ["add", "-".push (_model_class_to_resource_type m), path,
        meta.name, meta.value, meta.units], st.authenticated)] := by
  unfold add_meta
  simp only [opM_bind_def, opM_pure_def]
  rw [opBind_sendOp_trace]
  simp [@opBind_trace_nil Envelope Unit recvOp (fun _ => opPure ()) st
    (recvOp_trace st) (fun a st' => rfl)]

theorem remove_meta_trace (m : ModelCls) (path : String) (meta : IRodsMeta)
    (st : SessionState) :
    (remove_meta m path meta st).2.2 =
      [(modAVUMsg ["rm", "-".push (_model_class_to_resource_type m), path,
        meta.name, meta.value, meta.units], st.authenticated)] := by
  unfold remove_meta
  simp only [opM_bind_def, opM_pure_def]
  rw [opBind_sendOp_trace]
  simp [@opBind_trace_nil Envelope Unit recvOp (fun _ => opPure ()) st
    (recvOp_trace st) (fun a st' => rfl)]

theorem copy_meta_trace (src dest : ModelCls) (s d : String)
    (st : SessionState) :
    (copy_meta src dest s d st).2.2 =
      [(modAVUMsg ["cp", "-".push (_model_class_to_resource_type src),
        "-".push (_model_class_to_resource_type dest), s, d],
        st.authenticated)] := by
  unfold copy_meta
  simp only [opM_bind_def, opM_pure_def]
  rw [opBind_sendOp_trace]
  simp [@opBind_trace_nil Envelope Unit recvOp (fun _ => opPure ()) st
    (recvOp_trace st) (fun a st' => rfl)]

/-- Every guarded public operation invoked unauthenticated sends the
handshake request first. -/
theorem applyOp_head_unauth (c : OpCall) (_ : c.isMetaMod = false) :
    ∀ st : SessionState, st.authenticated = false →
      ((applyOp c st).2.2).head? = some (auth_req, false) := by
  cases c with
  | getCollection path =>
    intro st h
    show ((opBind (get_collection path) (fun _ => opPure ()) st).2.2).head?
      = _
    rw [opBind_pure_trace]
    exact head_get_collection path st h
  | getDataObject path =>
    intro st h
    show ((opBind (get_data_object path) (fun _ => opPure ()) st).2.2).head?
      = _
    rw [opBind_pure_trace]
    exact head_get_data_object path st h
  | createDataObject path =>
    intro st h
    show ((opBind (create_data_object path) (fun _ => opPure ())
      st).2.2).head? = _
    rw [opBind_pure_trace]
    exact head_create_data_object path st h
  | openFile path mode =>
    intro st h
    show ((opBind (open_file path mode) (fun _ => opPure ())
      st).2.2).head? = _
    rw [opBind_pure_trace]
    exact head_open_file path mode st h
  | readFile desc size =>
    intro st h
    show ((opBind (read_file desc size) (fun _ => opPure ())
      st).2.2).head? = _
    rw [opBind_pure_trace]
    exact head_read_file desc size st h
  | writeFile desc payload =>
    intro st h
    show ((opBind (write_file desc payload) (fun _ => opPure ())
      st).2.2).head? = _
    rw [opBind_pure_trace]
    exact head_write_file desc payload st h
  | seekFile desc offset whence =>
    intro st h
    show ((opBind (seek_file desc offset whence) (fun _ => opPure ())
      st).2.2).head? = _
    rw [opBind_pure_trace]
    exact head_seek_file desc offset whence st h
  | closeFile desc => exact fun st h => head_close_file desc st h
  | unlinkDataObject path =>
    exact fun st h => head_unlink_data_object path st h
  | executeQuery q =>
    intro st h
    show ((opBind (execute_query q) (fun _ => opPure ()) st).2.2).head? = _
    rw [opBind_pure_trace]
    exact head_execute_query q st h
  | addMeta m path meta => simp [OpCall.isMetaMod] at *
  | removeMeta m path meta => simp [OpCall.isMetaMod] at *
  | copyMeta src dest s d => simp [OpCall.isMetaMod] at *

/-! ## Claim C1 -/

/-- A concrete unauthenticated session used to exhibit the metadata-path
violation of the authentication invariant. -/
def c1State : SessionState := ⟨false, "alice", [1, 2, 3], []⟩

/-- A concrete AVU triple. -/
def c1Meta : IRodsMeta := ⟨"attr", "val", "unit", none⟩

/-- Claim C1 counterexample: invoking the public operation `add_meta` on an
unauthenticated session sends its (privileged, non-handshake) modify-AVU
request with the authenticated flag still false, and no handshake is
performed first — refuting "every public operation first ensures
authentication; no privileged request is ever sent while authenticated is
false". -/
theorem C1_counterexample :
    (applyOp (.addMeta .DataObject "/tempZone/obj" c1Meta) c1State).2.2 =
      [(modAVUMsg ["add", "-d", "/tempZone/obj", "attr", "val", "unit"],
        false)] ∧
    authNum (modAVUMsg ["add", "-d", "/tempZone/obj", "attr", "val", "unit"])
      = false ∧
    c1State.authenticated = false := by
  refine ⟨?_, by decide, rfl⟩
  show (add_meta .DataObject "/tempZone/obj" c1Meta c1State).2.2 = _
  rw [add_meta_trace]
  rfl

/-- Claim C1, amended: every public session operation except metadata
add/remove/copy ensures authentication first — it never sends a
non-handshake message while the flag is false, and when invoked
unauthenticated its first wire message is the handshake request; the three
metadata-modifying operations instead send exactly their own modify-AVU
request immediately, with whatever flag value the session has. -/
theorem C1_theorem :
    (∀ c : OpCall, c.isMetaMod = false →
      (∀ st p, p ∈ (applyOp c st).2.2 → authNum p.1 = false → p.2 = true) ∧
      (∀ st : SessionState, st.authenticated = false →
        ((applyOp c st).2.2).head? = some (auth_req, false))) ∧
    (∀ c : OpCall, c.isMetaMod = true → ∀ st : SessionState,
      ∃ m : SentMsg, (applyOp c st).2.2 = [(m, st.authenticated)] ∧
        authNum m = false) := by
  constructor
  · intro c hc
    refine ⟨?_, applyOp_head_unauth c hc⟩
    cases c with
    | getCollection path =>
      exact safeTrace_opBind (safe_get_collection path)
        (fun _ => safeTrace_opPure _)
    | getDataObject path =>
      exact safeTrace_opBind (safe_get_data_object path)
        (fun _ => safeTrace_opPure _)
    | createDataObject path =>
      exact safeTrace_opBind (safe_create_data_object path)
        (fun _ => safeTrace_opPure _)
    | openFile path mode =>
      exact safeTrace_opBind (safe_open_file path mode)
        (fun _ => safeTrace_opPure _)
    | readFile desc size =>
      exact safeTrace_opBind (safe_read_file desc size)
        (fun _ => safeTrace_opPure _)
    | writeFile desc payload =>
      exact safeTrace_opBind (safe_write_file desc payload)
        (fun _ => safeTrace_opPure _)
    | seekFile desc offset whence =>
      exact safeTrace_opBind (safe_seek_file desc offset whence)
        (fun _ => safeTrace_opPure _)
    | closeFile desc => exact safe_close_file desc
    | unlinkDataObject path => exact safe_unlink_data_object path
    | executeQuery q =>
      exact safeTrace_opBind (safe_execute_query q)
        (fun _ => safeTrace_opPure _)
    | addMeta m path meta => simp [OpCall.isMetaMod] at *
    | removeMeta m path meta => simp [OpCall.isMetaMod] at *
    | copyMeta src dest s d => simp [OpCall.isMetaMod] at *
  · intro c hc st
    cases c with
    | addMeta m path meta =>
      exact ⟨_, add_meta_trace m path meta st,
        by simp [authNum, modAVUMsg, MOD_AVU_METADATA_AN]⟩
    | removeMeta m path meta =>
      exact ⟨_, remove_meta_trace m path meta st,
        by simp [authNum, modAVUMsg, MOD_AVU_METADATA_AN]⟩
    | copyMeta src dest s d =>
      exact ⟨_, copy_meta_trace src dest s d st,
        by simp [authNum, modAVUMsg, MOD_AVU_METADATA_AN]⟩
    | getCollection path => simp [OpCall.isMetaMod] at hc
    | getDataObject path => simp [OpCall.isMetaMod] at hc
    | createDataObject path => simp [OpCall.isMetaMod] at hc
    | openFile path mode => simp [OpCall.isMetaMod] at hc
    | readFile desc size => simp [OpCall.isMetaMod] at hc
    | writeFile desc payload => simp [OpCall.isMetaMod] at hc
    | seekFile desc offset whence => simp [OpCall.isMetaMod] at hc
    | closeFile desc => simp [OpCall.isMetaMod] at hc
    | unlinkDataObject path => simp [OpCall.isMetaMod] at hc
    | executeQuery q => simp [OpCall.isMetaMod] at hc

/-- Witness for C1: the amended theorem applied to a concrete guarded
operation on a concrete unauthenticated session, and to a concrete metadata
operation. -/
theorem C1_witness :
    ((applyOp (.closeFile 3) ⟨false, "alice", [1, 2, 3], []⟩).2.2).head? =
      some (auth_req, false) :=
  (C1_theorem.1 (.closeFile 3) rfl).2 ⟨false, "alice", [1, 2, 3], []⟩ rfl

/-! ## Claim C3 -/

/-- Claim C3: on receive, a negative status/info field is raised as the
error kind looked up in the status-code table, before any body field is
interpreted (the outcome is the same for any envelope with the same
negative status, whatever its body, error flag or payload); a non-negative
status returns the envelope intact. -/
theorem C3_theorem :
    ∀ (st : SessionState) (e : Envelope) (rest : List Envelope),
      st.inbox = e :: rest →
      (e.int_info < 0 →
        recvOp st = (.error (get_exception_by_code e.int_info),
          { st with inbox := rest }, []) ∧
        ∀ e' : Envelope, e'.int_info = e.int_info →
          recvOp { st with inbox := e' :: rest } = recvOp st) ∧
      (0 ≤ e.int_info →
        recvOp st = (.ok e, { st with inbox := rest }, [])) := by
  intro st e rest hib
  constructor
  · intro hneg
    refine ⟨by simp [recvOp, hib, hneg], ?_⟩
    intro e' he'
    simp [recvOp, hib, he', hneg]
  · intro hpos
    simp [recvOp, hib, not_lt.mpr hpos]

/-- A one-envelope inbox carrying a negative status used as the C3
witness input. -/
def c3State : SessionState :=
  ⟨true, "alice", [], [⟨"RODS_API_REPLY", -5, false,
    .genQueryOut ⟨[], []⟩, [9, 9]⟩]⟩

/-- Witness for C3 at a concrete negative-status envelope. -/
theorem C3_witness :
    recvOp c3State = (.error (get_exception_by_code (-5)),
      { c3State with inbox := [] }, []) :=
  ((C3_theorem c3State
    ⟨"RODS_API_REPLY", -5, false, .genQueryOut ⟨[], []⟩, [9, 9]⟩ []
    rfl).1 (by decide)).1

/-! ## Claim C4 -/

/-- Claim C4: the authentication digest is MD5 over the challenge nonce
followed by the password zero-padded (or truncated) to
`MAX_PASSWORD_LENGTH`, with every zero byte of the 16-byte digest replaced
by the byte value 1; the result has 16 bytes, none of them zero, and is
deterministic in (nonce, password). -/
theorem C4_theorem :
    ∀ challenge pwd : List Nat,
      encodePassword challenge pwd =
        (md5 (challenge ++ (pwd.take MAX_PASSWORD_LENGTH ++
          List.replicate (MAX_PASSWORD_LENGTH - pwd.length) 0))).map
          (fun b => if b = 0 then 1 else b) ∧
      (padPassword pwd).length = MAX_PASSWORD_LENGTH ∧
      (encodePassword challenge pwd).length = 16 ∧
      (∀ b ∈ encodePassword challenge pwd, b ≠ 0) ∧
      (∀ c2 p2 : List Nat, challenge = c2 → pwd = p2 →
        encodePassword challenge pwd = encodePassword c2 p2) := by
  intro challenge pwd
  refine ⟨rfl, padPassword_length pwd, ?_, ?_, ?_⟩
  · simp [encodePassword, md5_length]
  · intro b hb
    simp only [encodePassword, List.mem_map] at hb
    obtain ⟨x, _, hx⟩ := hb
    rw [← hx]
    unfold zeroToOne
    by_cases h0 : x = 0
    · simp [h0]
    · simp [h0]
  · intro c2 p2 hc hp
    rw [hc, hp]

/-- Witness for C4 at a concrete nonce and password. -/
theorem C4_witness :
    (encodePassword [1, 2, 3, 4] [115, 101, 99]).length = 16 ∧
    (∀ b ∈ encodePassword [1, 2, 3, 4] [115, 101, 99], b ≠ 0) :=
  ⟨(C4_theorem [1, 2, 3, 4] [115, 101, 99]).2.2.1,
   (C4_theorem [1, 2, 3, 4] [115, 101, 99]).2.2.2.1⟩

/-! ## Claim C8 -/

/-- Claim C8: the resource-type discriminator maps DataObject to 'd',
Collection to 'c', Resource to 'r' and User to 'r' (the same letter as
Resource), even though the `get_meta` dispatch dictionaries have a
dedicated 'u' entry elsewhere in the source. -/
theorem C8_theorem :
    _model_class_to_resource_type .DataObject = 'd' ∧
    _model_class_to_resource_type .Collection = 'c' ∧
    _model_class_to_resource_type .Resource = 'r' ∧
    _model_class_to_resource_type .User = 'r' ∧
    _model_class_to_resource_type .User =
      _model_class_to_resource_type .Resource ∧
    metaModelDict 'u' = some .UserMeta ∧
    (∀ path : String, metaConditionsDict path 'u' =
      some [(.userName, .s path)]) := by
  refine ⟨rfl, rfl, rfl, rfl, rfl, by decide, ?_⟩
  intro path
  simp [metaConditionsDict]

/-! ## Trace shape of an authenticated query -/

theorem opBind_trace_decomp {α β : Type} {f : OpM α} (g : α → OpM β)
    {st : SessionState} {a : α} {st1 : SessionState} {t1 : Trace}
    (h : f st = (.ok a, st1, t1)) :
    ((opBind f g) st).2.2 = t1 ++ (g a st1).2.2 := by
  rcases hge : g a st1 with ⟨r2, st2, t2⟩
  simp [opBind_eq_ok g h hge, hge]

theorem tryCatch_trace_nil {α : Type} {f h : OpM α} (st : SessionState)
    (hf : (f st).2.2 = []) (hh : ∀ st', (h st').2.2 = []) :
    (tryCatchNoRows f h st).2.2 = [] := by
  rcases hfe : f st with ⟨r, st1, t1⟩
  have hf' : t1 = [] := by rw [hfe] at hf; exact hf
  cases r with
  | ok a => rw [tryCatch_eq_ok hfe]; exact hf'
  | error e =>
    by_cases hc : e = .remote CAT_NO_ROWS_FOUND
    · subst hc
      rcases hhe : h st1 with ⟨r2, st2, t2⟩
      have ht2 : t2 = [] := by
        have := hh st1
        rw [hhe] at this
        exact this
      rw [tryCatch_eq_error_norows hfe hhe]
      show t1 ++ t2 = []
      simp [hf', ht2]
    · rw [tryCatch_eq_error_other hfe hc]
      exact hf'

theorem execute_body_trace_nil (cols : List Column) (st : SessionState) :
    ((tryCatchNoRows
      (opBind recvOp (fun result_message =>
        opBind (liftE result_message.getGenQueryOut) (fun results =>
          opPure (ResultSet.mk results))))
      (opPure (ResultSet.mk (empty_gen_query_out cols)))) st).2.2 = [] := by
  apply tryCatch_trace_nil
  · exact @opBind_trace_nil Envelope ResultSet recvOp _ st (recvOp_trace st)
      (fun a st' => @opBind_trace_nil GenQueryOut ResultSet _ _ st' rfl
        (fun b st'' => rfl))
  · intro st'
    rfl

/-- An authenticated `execute_query` sends exactly the one query request,
flagged authenticated. -/
theorem execute_query_trace_auth (q : Query) (st : SessionState)
    (h : st.authenticated = true) :
    (execute_query q st).2.2 = [(genQueryMsg q, true)] := by
  unfold execute_query
  simp only [opM_bind_def, opM_pure_def]
  simp [opBind_trace_decomp _ (ensureAuth_eq_true st h), opBind_sendOp_trace,
    execute_body_trace_nil, h]

theorem opBind_opPure_trace {α β : Type} (f : OpM α) (k : α → β)
    (st : SessionState) :
    ((opBind f (fun a => opPure (k a))) st).2.2 = (f st).2.2 := by
  rcases hfe : f st with ⟨r, st1, t1⟩
  cases r with
  | error e =>
    simp [opBind_eq_error (fun a => opPure (k a)) hfe, hfe]
  | ok a =>
    simp [opBind_eq_ok (fun a => opPure (k a)) hfe
      (rfl : (fun a => opPure (k a)) a st1 = (.ok (k a), st1, [])), hfe]

/-- `get_meta` on the Resource class, unfolded to its single query. -/
theorem get_meta_resource_eq (path : String) :
    get_meta .Resource path =
      opBind (queryAll ⟨[.resourceMetaId, .resourceMetaName,
        .resourceMetaValue, .resourceMetaUnits],
        [(.resourceName, .s path)]⟩)
      (fun results => opPure (results.raw.rows.map (fun row =>
        IRodsMeta.mk (row.get (MetaModel.nameCol .ResourceMeta)).asStr
          (row.get (MetaModel.valueCol .ResourceMeta)).asStr
          (row.get (MetaModel.unitsCol .ResourceMeta)).asStr
          (some (row.get (MetaModel.idCol .ResourceMeta)))))) := by
  rfl

/-! ## Claim C10 -/

/-- Claim C10: because the discriminator maps User to 'r', `get_meta` on
User is literally the same operation as `get_meta` on Resource — it queries
the resource metadata model under the condition `Resource.name == path`
(one query request over the four ResourceMeta columns filtered by resource
name) — and the dedicated 'u' branches of the dispatch dictionaries are
unreachable from the public interface. -/
theorem C10_theorem :
    (∀ path : String, get_meta .User path = get_meta .Resource path) ∧
    (∀ (st : SessionState) (path : String), st.authenticated = true →
      (get_meta .User path st).2.2 =
        [(genQueryMsg ⟨[.resourceMetaId, .resourceMetaName,
          .resourceMetaValue, .resourceMetaUnits],
          [(.resourceName, .s path)]⟩, true)]) ∧
    (∀ m : ModelCls, _model_class_to_resource_type m ≠ 'u') := by
  refine ⟨fun path => rfl, ?_, fun m => by cases m <;> decide⟩
  intro st path h
  rw [show get_meta ModelCls.User path = get_meta ModelCls.Resource path
    from rfl, get_meta_resource_eq, opBind_opPure_trace]
  exact execute_query_trace_auth _ st h

/-- Witness for C10 at a concrete authenticated session and path. -/
theorem C10_witness :
    (get_meta .User "demoResc" ⟨true, "rods", [], []⟩).2.2 =
      [(genQueryMsg ⟨[.resourceMetaId, .resourceMetaName,
        .resourceMetaValue, .resourceMetaUnits],
        [(.resourceName, .s "demoResc")]⟩, true)] :=
  C10_theorem.2.1 ⟨true, "rods", [], []⟩ "demoResc" rfl

/-! ## Full runs of an authenticated query -/

/-- A successful response decodes into a Result Set wrapping the table. -/
theorem execute_query_run (q : Query) (st : SessionState) (e : Envelope)
    (rest : List Envelope) (g : GenQueryOut)
    (hauth : st.authenticated = true) (hib : st.inbox = e :: rest)
    (hpos : 0 ≤ e.int_info) (hbody : e.body = .genQueryOut g) :
    execute_query q st = (.ok (ResultSet.mk g), { st with inbox := rest },
      [(genQueryMsg q, true)]) := by
  have hne : ¬ e.int_info < 0 := not_lt.mpr hpos
  simp [execute_query, opM_bind_def, opM_pure_def, opBind,
    ensureAuth_eq_true st hauth, sendOp, tryCatchNoRows, recvOp, hib, hne,
    liftE, Envelope.getGenQueryOut, hbody, opPure, hauth]

/-- A "no rows found" failure is swallowed into an empty Result Set over the
originally requested columns. -/
theorem execute_query_run_norows (q : Query) (st : SessionState)
    (e : Envelope) (rest : List Envelope)
    (hauth : st.authenticated = true) (hib : st.inbox = e :: rest)
    (hno : e.int_info = CAT_NO_ROWS_FOUND) :
    execute_query q st = (.ok (ResultSet.mk (empty_gen_query_out q.columns)),
      { st with inbox := rest }, [(genQueryMsg q, true)]) := by
  have hcat : CAT_NO_ROWS_FOUND < (0 : Int) := by
    norm_num [CAT_NO_ROWS_FOUND]
  simp [execute_query, opM_bind_def, opM_pure_def, opBind,
    ensureAuth_eq_true st hauth, sendOp, tryCatchNoRows, recvOp, hib, hcat,
    get_exception_by_code, hno, liftE, opPure, hauth]

/-- Any other failing status code propagates unchanged. -/
theorem execute_query_run_error (q : Query) (st : SessionState)
    (e : Envelope) (rest : List Envelope)
    (hauth : st.authenticated = true) (hib : st.inbox = e :: rest)
    (hneg : e.int_info < 0) (hne : e.int_info ≠ CAT_NO_ROWS_FOUND) :
    execute_query q st = (.error (.remote e.int_info),
      { st with inbox := rest }, [(genQueryMsg q, true)]) := by
  simp [execute_query, opM_bind_def, opM_pure_def, opBind,
    ensureAuth_eq_true st hauth, sendOp, tryCatchNoRows, recvOp, hib, hneg,
    get_exception_by_code, hne, liftE, opPure, hauth]

/-! ## Claim C2 -/

/-- Claim C2: an `execute_query` whose RPC response fails with the
"no rows found" error kind returns a Result Set of length 0 built over the
originally requested columns instead of raising; any other error kind
propagates and no Result Set is produced; a successful response yields a
Result Set wrapping the decoded table. -/
theorem C2_theorem :
    ∀ (q : Query) (st : SessionState) (e : Envelope) (rest : List Envelope),
      st.authenticated = true → st.inbox = e :: rest →
      (e.int_info = CAT_NO_ROWS_FOUND →
        (execute_query q st).1 =
          .ok (ResultSet.mk (empty_gen_query_out q.columns)) ∧
        (ResultSet.mk (empty_gen_query_out q.columns)).length = 0 ∧
        (ResultSet.mk (empty_gen_query_out q.columns)).raw.columns =
          q.columns) ∧
      (e.int_info < 0 → e.int_info ≠ CAT_NO_ROWS_FOUND →
        (execute_query q st).1 = .error (.remote e.int_info)) ∧
      (∀ g : GenQueryOut, 0 ≤ e.int_info → e.body = .genQueryOut g →
        (execute_query q st).1 = .ok (ResultSet.mk g)) := by
  intro q st e rest hauth hib
  refine ⟨?_, ?_, ?_⟩
  · intro hno
    rw [execute_query_run_norows q st e rest hauth hib hno]
    exact ⟨rfl, rfl, rfl⟩
  · intro hneg hne
    rw [execute_query_run_error q st e rest hauth hib hneg hne]
  · intro g hpos hbody
    rw [execute_query_run q st e rest g hauth hib hpos hbody]

/-- A query over two collection columns used as the C2 witness input. -/
def c2Query : Query := ⟨[.collectionId, .collectionName], []⟩

/-- A session whose next envelope fails with the "no rows found" code. -/
def c2State : SessionState :=
  ⟨true, "rods", [], [⟨"RODS_API_REPLY", CAT_NO_ROWS_FOUND, false, .empty,
    []⟩]⟩

/-- Witness for C2 at a concrete "no rows found" response. -/
theorem C2_witness :
    (execute_query c2Query c2State).1 =
      .ok (ResultSet.mk (empty_gen_query_out c2Query.columns)) ∧
    (ResultSet.mk (empty_gen_query_out c2Query.columns)).length = 0 ∧
    (ResultSet.mk (empty_gen_query_out c2Query.columns)).raw.columns =
      c2Query.columns :=
  (C2_theorem c2Query c2State
    ⟨"RODS_API_REPLY", CAT_NO_ROWS_FOUND, false, .empty, []⟩ [] rfl rfl).1
    rfl

/-! ## Claim C9 -/

/-- Modelled from the spec: POSIX `lseek` semantics honoured by the server
(whence 0/1/2 = absolute/relative/end); `pos` is the current offset and
`size` the data size. -/
def posixLseek (pos size offset whence : Int) : Option Int :=
  let target :=
    if whence = 0 then offset
    else if whence = 1 then pos + offset
    else size + offset
  if (whence = 0 ∨ whence = 1 ∨ whence = 2) ∧ 0 ≤ target then some target
  else none

/-- A non-failing envelope reporting the resulting absolute offset. -/
def lseekReplyEnv (off : Int) : Envelope :=
  ⟨"RODS_API_REPLY", 0, false, .fileLseekOut off, []⟩

theorem seek_file_run (desc offset whence : Int) (st : SessionState)
    (e : Envelope) (rest : List Envelope) (r : Int)
    (hauth : st.authenticated = true) (hib : st.inbox = e :: rest)
    (hpos : 0 ≤ e.int_info) (hbody : e.body = .fileLseekOut r) :
    seek_file desc offset whence st =
      (.ok r, { st with inbox := rest },
        [(lseekMsg desc offset whence, true)]) := by
  have hne : ¬ e.int_info < 0 := not_lt.mpr hpos
  simp [seek_file, opM_bind_def, opM_pure_def, opBind,
    ensureAuth_eq_true st hauth, sendOp, recvOp, hib, hne, liftE,
    Envelope.getLseekOut, hbody, hauth]

/-- Claim C9: seek forwards (descriptor, offset, whence) verbatim and
returns the absolute offset reported in the server's response; against a
server honouring POSIX lseek semantics, `seek(desc, 10, 0)` returns 10 and
a following `seek(desc, 5, 1)` returns 15. -/
theorem C9_theorem :
    (∀ (desc offset whence : Int) (st : SessionState) (e : Envelope)
      (rest : List Envelope) (r : Int),
      st.authenticated = true → st.inbox = e :: rest → 0 ≤ e.int_info →
      e.body = .fileLseekOut r →
      seek_file desc offset whence st =
        (.ok r, { st with inbox := rest },
          [(lseekMsg desc offset whence, true)])) ∧
    posixLseek 0 100 10 0 = some 10 ∧
    posixLseek 10 100 5 1 = some 15 ∧
    (∀ (desc : Int) (user : String) (pwd : List Nat),
      (seek_file desc 10 0
        ⟨true, user, pwd, [lseekReplyEnv ((posixLseek 0 100 10 0).getD 0),
          lseekReplyEnv ((posixLseek 10 100 5 1).getD 0)]⟩).1 = .ok 10 ∧
      (seek_file desc 5 1
        ((seek_file desc 10 0
          ⟨true, user, pwd, [lseekReplyEnv ((posixLseek 0 100 10 0).getD 0),
            lseekReplyEnv ((posixLseek 10 100 5 1).getD 0)]⟩).2.1)).1 =
        .ok 15) := by
  refine ⟨fun desc offset whence st e rest r h1 h2 h3 h4 =>
    seek_file_run desc offset whence st e rest r h1 h2 h3 h4,
    by decide, by decide, ?_⟩
  intro desc user pwd
  exact ⟨rfl, rfl⟩

/-- Witness for C9 at a concrete descriptor and response. -/
theorem C9_witness :
    seek_file 3 10 0 ⟨true, "rods", [], [lseekReplyEnv 10]⟩ =
      (.ok 10,
        { (⟨true, "rods", [], [lseekReplyEnv 10]⟩ : SessionState) with
          inbox := [] },
        [(lseekMsg 3 10 0, true)]) :=
  C9_theorem.1 3 10 0 _ (lseekReplyEnv 10) [] 10 rfl rfl (by decide) rfl

/-! ## Claim C5 -/

theorem close_file_run (desc : Int) (st : SessionState) (e : Envelope)
    (rest : List Envelope) (hauth : st.authenticated = true)
    (hib : st.inbox = e :: rest) (hpos : 0 ≤ e.int_info) :
    close_file desc st = (.ok (), { st with inbox := rest },
      [(closeMsg desc, true)]) := by
  have hne : ¬ e.int_info < 0 := not_lt.mpr hpos
  simp [close_file, opM_bind_def, opM_pure_def, opBind,
    ensureAuth_eq_true st hauth, sendOp, recvOp, hib, hne, opPure, hauth]

/-- Claim C5: `create_data_object` sends the create request, closes exactly
the descriptor carried in the response's status field, and then returns
whatever a fresh `get_data_object` resolution of the path produces on the
remaining connection state — the result is never built from the create
response alone. -/
theorem C5_theorem :
    ∀ (path : String) (st : SessionState) (e1 e2 : Envelope)
      (rest : List Envelope),
      st.authenticated = true → st.inbox = e1 :: e2 :: rest →
      0 ≤ e1.int_info → 0 ≤ e2.int_info →
      create_data_object path st =
        ((get_data_object path { st with inbox := rest }).1,
         (get_data_object path { st with inbox := rest }).2.1,
         (createMsg path, true) :: (closeMsg e1.int_info, true) ::
           (get_data_object path { st with inbox := rest }).2.2) := by
  intro path st e1 e2 rest hauth hib h1 h2
  have hne1 : ¬ e1.int_info < 0 := not_lt.mpr h1
  have hclose := close_file_run e1.int_info { st with inbox := e2 :: rest }
    e2 rest hauth rfl h2
  simp only [hauth] at hclose
  rcases hgde : get_data_object path { st with inbox := rest }
    with ⟨rg, stg, tg⟩
  simp only [hauth] at hgde
  simp [create_data_object, opM_bind_def, opM_pure_def, opBind,
    ensureAuth_eq_true st hauth, sendOp, recvOp, hib, hne1, hclose, hgde,
    hauth]

/-- The create response: the new descriptor 3 in the status field. -/
def c5CreateEnv : Envelope := ⟨"RODS_API_REPLY", 3, false, .empty, []⟩

/-- The close acknowledgment. -/
def c5CloseEnv : Envelope := ⟨"RODS_API_REPLY", 0, false, .empty, []⟩

/-- The C5 witness session: create and close responses scripted. -/
def c5State : SessionState := ⟨true, "rods", [], [c5CreateEnv, c5CloseEnv]⟩

/-- Witness for C5 at a concrete create/close exchange. -/
theorem C5_witness :
    create_data_object "/z/home/f.txt" c5State =
      ((get_data_object "/z/home/f.txt" { c5State with inbox := [] }).1,
       (get_data_object "/z/home/f.txt" { c5State with inbox := [] }).2.1,
       (createMsg "/z/home/f.txt", true) :: (closeMsg 3, true) ::
         (get_data_object "/z/home/f.txt" { c5State with inbox := [] }).2.2) :=
  C5_theorem "/z/home/f.txt" c5State c5CreateEnv c5CloseEnv [] rfl rfl
    (by decide) (by decide)

/-! ## Claim C6 -/

theorem get_collection_run (path : String) (st : SessionState) (e : Envelope)
    (rest : List Envelope) (g : GenQueryOut)
    (hauth : st.authenticated = true) (hib : st.inbox = e :: rest)
    (hpos : 0 ≤ e.int_info) (hbody : e.body = .genQueryOut g) :
    get_collection path st =
      (if g.rows.length = 1 then
        .ok (IRodsCollection.mk (g.rows.getD 0 []))
       else .error .collectionDoesNotExist,
       { st with inbox := rest },
       [(genQueryMsg ⟨columnsOf .Collection,
         [(.collectionName, .s path)]⟩, true)]) := by
  have hexec := execute_query_run
    ((queryModel .Collection).filter (.collectionName, .s path)) st e rest g
    hauth hib hpos hbody
  simp only [hauth] at hexec
  simp [queryModel, Query.filter] at hexec
  simp [get_collection, opM_bind_def, opM_pure_def, opBind,
    ensureAuth_eq_true st hauth, hexec, ResultSet.length, ResultSet.getRow,
    queryModel, Query.filter, hauth, ite_apply, apply_ite, opPure, opFail]
  constructor <;> by_cases hL : g.rows.length = 1 <;> simp [hL]

theorem get_data_object_run (path : String) (st : SessionState)
    (e1 e2 : Envelope) (rest : List Envelope) (g1 g2 : GenQueryOut)
    (r1 : Row) (hauth : st.authenticated = true)
    (hib : st.inbox = e1 :: e2 :: rest) (h1 : 0 ≤ e1.int_info)
    (hb1 : e1.body = .genQueryOut g1) (hg1 : g1.rows = [r1])
    (h2 : 0 ≤ e2.int_info) (hb2 : e2.body = .genQueryOut g2) :
    get_data_object path st =
      (if g2.rows.length = 1 then
        .ok (IRodsDataObject.mk (IRodsCollection.mk r1) (g2.rows.getD 0 []))
       else .error .dataObjectDoesNotExist,
       { st with inbox := rest },
       [(genQueryMsg ⟨columnsOf .Collection,
          [(.collectionName, .s (dirname path))]⟩, true),
        (genQueryMsg ⟨columnsOf .DataObject,
          [(.dataObjectName, .s (basename path)),
           (.dataObjectCollectionId, .i (IRodsCollection.mk r1).id)]⟩,
          true)]) := by
  have hcol := get_collection_run (dirname path) st e1 (e2 :: rest) g1 hauth
    hib h1 hb1
  simp [hauth, hg1] at hcol
  have hq := execute_query_run
    (((queryModel .DataObject).filter
        (.dataObjectName, .s (basename path))).filter
      (.dataObjectCollectionId, .i (IRodsCollection.mk r1).id))
    { st with inbox := e2 :: rest } e2 rest g2 hauth rfl h2 hb2
  simp only [hauth] at hq
  simp [queryModel, Query.filter] at hq
  simp [get_data_object, opM_bind_def, opM_pure_def, opBind,
    ensureAuth_eq_true st hauth, hcol, queryAll, hq, ResultSet.length,
    ResultSet.getRow, queryModel, Query.filter, hauth, ite_apply, apply_ite,
    opPure, opFail]
  constructor <;> by_cases hL : g2.rows.length = 1 <;> simp [hL]

/-- Claim C6: resolving a collection queries the collection entity filtered
by the exact path and succeeds exactly on a one-row answer (zero rows — in
particular a "no rows found" reply — or several rows raise the
does-not-exist error); resolving a data object first resolves the parent
collection of the path's directory part, then queries the object entity by
(basename, parent collection id), with the same one-match requirement. -/
theorem C6_theorem :
    (∀ (path : String) (st : SessionState) (e : Envelope)
      (rest : List Envelope) (g : GenQueryOut),
      st.authenticated = true → st.inbox = e :: rest → 0 ≤ e.int_info →
      e.body = .genQueryOut g →
      get_collection path st =
        (if g.rows.length = 1 then
          .ok (IRodsCollection.mk (g.rows.getD 0 []))
         else .error .collectionDoesNotExist,
         { st with inbox := rest },
         [(genQueryMsg ⟨columnsOf .Collection,
           [(.collectionName, .s path)]⟩, true)])) ∧
    (∀ (path : String) (st : SessionState) (e : Envelope)
      (rest : List Envelope),
      st.authenticated = true → st.inbox = e :: rest →
      e.int_info = CAT_NO_ROWS_FOUND →
      (get_collection path st).1 = .error .collectionDoesNotExist) ∧
    (∀ (path : String) (st : SessionState) (e1 e2 : Envelope)
      (rest : List Envelope) (g1 g2 : GenQueryOut) (r1 : Row),
      st.authenticated = true → st.inbox = e1 :: e2 :: rest →
      0 ≤ e1.int_info → e1.body = .genQueryOut g1 → g1.rows = [r1] →
      0 ≤ e2.int_info → e2.body = .genQueryOut g2 →
      get_data_object path st =
        (if g2.rows.length = 1 then
          .ok (IRodsDataObject.mk (IRodsCollection.mk r1)
            (g2.rows.getD 0 []))
         else .error .dataObjectDoesNotExist,
         { st with inbox := rest },
         [(genQueryMsg ⟨columnsOf .Collection,
            [(.collectionName, .s (dirname path))]⟩, true),
          (genQueryMsg ⟨columnsOf .DataObject,
            [(.dataObjectName, .s (basename path)),
             (.dataObjectCollectionId, .i (IRodsCollection.mk r1).id)]⟩,
            true)])) := by
  refine ⟨fun path st e rest g h1 h2 h3 h4 =>
      get_collection_run path st e rest g h1 h2 h3 h4, ?_,
    fun path st e1 e2 rest g1 g2 r1 ha hb hc hd he hf hg =>
      get_data_object_run path st e1 e2 rest g1 g2 r1 ha hb hc hd he hf hg⟩
  intro path st e rest hauth hib hno
  have hexec := execute_query_run_norows
    ((queryModel .Collection).filter (.collectionName, .s path)) st e rest
    hauth hib hno
  simp only [hauth] at hexec
  simp [get_collection, opM_bind_def, opM_pure_def, opBind,
    ensureAuth_eq_true st hauth, hexec, ResultSet.length,
    empty_gen_query_out, hauth, opPure, opFail]

/-- The parent collection row returned by the first C6 witness query. -/
def c6Row : Row := [(.collectionId, .i 7), (.collectionName, .s "/z/home")]

/-- The data object row returned by the second C6 witness query. -/
def c6ObjRow : Row :=
  [(.dataObjectId, .i 21), (.dataObjectName, .s "f.txt"),
   (.dataObjectCollectionId, .i 7)]

/-- The two scripted query responses of the C6 witness. -/
def c6E1 : Envelope :=
  ⟨"RODS_API_REPLY", 0, false,
   .genQueryOut ⟨columnsOf .Collection, [c6Row]⟩, []⟩

def c6E2 : Envelope :=
  ⟨"RODS_API_REPLY", 0, false,
   .genQueryOut ⟨columnsOf .DataObject, [c6ObjRow]⟩, []⟩

def c6State : SessionState := ⟨true, "rods", [], [c6E1, c6E2]⟩

/-- Witness for C6 at a concrete two-query resolution. -/
theorem C6_witness :
    get_data_object "/z/home/f.txt" c6State =
      (.ok (IRodsDataObject.mk (IRodsCollection.mk c6Row) c6ObjRow),
       { c6State with inbox := [] },
       [(genQueryMsg ⟨columnsOf .Collection,
          [(.collectionName, .s (dirname "/z/home/f.txt"))]⟩, true),
        (genQueryMsg ⟨columnsOf .DataObject,
          [(.dataObjectName, .s (basename "/z/home/f.txt")),
           (.dataObjectCollectionId, .i (IRodsCollection.mk c6Row).id)]⟩,
          true)]) := by
  simpa using C6_theorem.2.2 "/z/home/f.txt" c6State c6E1 c6E2 []
    ⟨columnsOf .Collection, [c6Row]⟩ ⟨columnsOf .DataObject, [c6ObjRow]⟩
    c6Row rfl rfl (by decide) rfl rfl (by decide) rfl

/-! ## Claim C7 -/

/-- The operation leaves the `authenticated` flag unchanged. -/
def AuthEq {α : Type} (f : OpM α) : Prop :=
  ∀ st, ((f st).2.1).authenticated = st.authenticated

/-- Whenever the operation fails, the flag is left unchanged. -/
def FlagOnErr {α : Type} (f : OpM α) : Prop :=
  ∀ st e st1 t, f st = (.error e, st1, t) →
    st1.authenticated = st.authenticated

theorem flagOnErr_of_authEq {α : Type} {f : OpM α} (hf : AuthEq f) :
    FlagOnErr f := by
  intro st e st1 t h
  have := hf st
  rw [h] at this
  exact this

theorem authEq_sendOp (m : SentMsg) : AuthEq (sendOp m) := fun _ => rfl

theorem authEq_recvOp : AuthEq recvOp := recvOp_auth

theorem authEq_liftE {α : Type} (r : Except IErr α) : AuthEq (liftE r) :=
  fun _ => rfl

theorem authEq_getState : AuthEq getState := fun _ => rfl

theorem authEq_opFail {α : Type} (e : IErr) : AuthEq (opFail e : OpM α) :=
  fun _ => rfl

theorem authEq_opPure {α : Type} (a : α) : AuthEq (opPure a) := fun _ => rfl

theorem flagOnErr_opBind {α β : Type} {f : OpM α} {g : α → OpM β}
    (hf : AuthEq f) (hg : ∀ a, FlagOnErr (g a)) :
    FlagOnErr (opBind f g) := by
  intro st e st1 t h
  rcases hfe : f st with ⟨r, stf, tf⟩
  have hfa : stf.authenticated = st.authenticated := by
    have := hf st
    rw [hfe] at this
    exact this
  cases r with
  | error e0 =>
    rw [opBind_eq_error g hfe] at h
    simp only [Prod.mk.injEq] at h
    rw [← h.2.1]
    exact hfa
  | ok a =>
    rcases hge : g a stf with ⟨r2, st2, t2⟩
    rw [opBind_eq_ok g hfe hge] at h
    simp only [Prod.mk.injEq] at h
    have := hg a stf e st1 t2 (by rw [hge, h.1, h.2.1])
    rw [this]
    exact hfa

theorem flagOnErr_setAuth_true : FlagOnErr (setAuth true) := by
  intro st e st1 t h
  simp [setAuth] at h

theorem flagOnErr_opFail {α : Type} (e0 : IErr) :
    FlagOnErr (opFail e0 : OpM α) :=
  flagOnErr_of_authEq (authEq_opFail e0)

theorem flagOnErr_ite {α : Type} (c : Prop) [Decidable c] {f g : OpM α}
    (hf : FlagOnErr f) (hg : FlagOnErr g) :
    FlagOnErr (if c then f else g) := by
  by_cases h : c
  · simpa [h] using hf
  · simpa [h] using hg

theorem login_flagOnErr : FlagOnErr _login := by
  unfold _login
  simp only [opM_bind_def, opM_pure_def]
  apply flagOnErr_opBind (authEq_sendOp _)
  intro _
  apply flagOnErr_opBind authEq_recvOp
  intro cm
  apply flagOnErr_opBind (authEq_liftE _)
  intro ch
  apply flagOnErr_opBind authEq_getState
  intro s
  apply flagOnErr_opBind (authEq_sendOp _)
  intro _
  apply flagOnErr_opBind authEq_recvOp
  intro ar
  exact flagOnErr_ite _ (flagOnErr_opFail _) flagOnErr_setAuth_true

/-- A login whose final envelope carries the explicit error flag (and a
non-negative status) fails with the explicit login-failure error. -/
theorem login_errorflag (st : SessionState) (ch fin : Envelope)
    (rest : List Envelope) (c : List Nat)
    (hib : st.inbox = ch :: fin :: rest) (h1 : 0 ≤ ch.int_info)
    (hch : ch.body = .authRequestOut c) (h2 : 0 ≤ fin.int_info)
    (herr : fin.error = true) :
    (_login st).1 = .error .authFailure := by
  have hn1 : ¬ ch.int_info < 0 := not_lt.mpr h1
  have hn2 : ¬ fin.int_info < 0 := not_lt.mpr h2
  simp [_login, opM_bind_def, opM_pure_def, opBind, sendOp, recvOp, hib,
    hn1, hn2, liftE, Envelope.getChallenge, hch, getState, herr, opFail,
    setAuth]

/-- The scripted challenge envelope used in the C7 inputs. -/
def c7ChallengeEnv : Envelope :=
  ⟨"RODS_API_REPLY", 0, false, .authRequestOut [1, 2, 3, 4], []⟩

/-- A session whose final login envelope carries a negative status code. -/
def c7State : SessionState :=
  ⟨false, "alice", [1, 2],
   [c7ChallengeEnv, ⟨"RODS_API_REPLY", -826000, false, .empty, []⟩]⟩

/-- Claim C7 counterexample: when the final handshake envelope carries a
negative status field, `_login` raises the error kind mapped from that
status code — not the AuthenticationError ("Unsuccessful login attempt")
failure — though the flag does stay false. -/
theorem C7_counterexample :
    (_login c7State).1 = .error (.remote (-826000)) ∧
    (IErr.remote (-826000)) ≠ IErr.authFailure ∧
    ((_login c7State).2.1).authenticated = false := by
  exact ⟨rfl, by decide, rfl⟩

/-- Claim C7, amended: a failed handshake raises the explicit
AuthenticationError exactly when the final envelope's error flag is set
(with non-negative status); a negative final status raises the mapped
remote error kind instead. In either failure the authenticated flag keeps
its previous value (so it stays false), every subsequent guarded public
operation invoked on the still-unauthenticated session attempts the
handshake again (its first wire message is the handshake request), and the
flag becomes true only when the login succeeds. -/
theorem C7_theorem :
    (∀ (st : SessionState) (e : IErr) (st1 : SessionState) (t : Trace),
      _login st = (.error e, st1, t) →
      st1.authenticated = st.authenticated) ∧
    (∀ (st : SessionState) (a : Unit) (st1 : SessionState) (t : Trace),
      _login st = (.ok a, st1, t) → st1.authenticated = true) ∧
    (∀ (st : SessionState) (ch fin : Envelope) (rest : List Envelope)
      (c : List Nat),
      st.inbox = ch :: fin :: rest → 0 ≤ ch.int_info →
      ch.body = .authRequestOut c → 0 ≤ fin.int_info → fin.error = true →
      (_login st).1 = .error .authFailure) ∧
    (∀ c : OpCall, c.isMetaMod = false → ∀ st : SessionState,
      st.authenticated = false →
      ((applyOp c st).2.2).head? = some (auth_req, false)) :=
  ⟨login_flagOnErr, okAuth_login, login_errorflag,
   fun c hc st h => applyOp_head_unauth c hc st h⟩

/-- A session whose final login envelope has the explicit error flag. -/
def c7FlagState : SessionState :=
  ⟨false, "alice", [1, 2],
   [c7ChallengeEnv, ⟨"RODS_API_REPLY", 0, true, .empty, []⟩]⟩

/-- Witness for C7: a concrete error-flagged final envelope raises the
explicit login failure. -/
theorem C7_witness :
    (_login c7FlagState).1 = .error .authFailure :=
  C7_theorem.2.2.1 c7FlagState c7ChallengeEnv
    ⟨"RODS_API_REPLY", 0, true, .empty, []⟩ [] [1, 2, 3, 4] rfl (by decide)
    rfl (by decide) rfl

end IrodsClient
